import Mathlib

/-!
Verification of the BIG-IQ utility license assignment Ansible module
(plugins/modules/bigiq_utility_license_assignment.py).

The module logic is embedded shallowly.  REST interaction is modelled as a
state monad over a script of pending responses, consumed in order (one
response per issued request), together with a trace of the issued requests.
Python property accessors that perform GET requests become monadic
functions; raising F5ModuleError becomes an error result.  A Python level
fault (indexing items[0] of an empty list) and exhaustion of the scripted
responses are separate error results.
-/

namespace BigIQ

/-- One element of the items array of a JSON response body; the module reads
the uuid field (device lookups) and the id field (offering and member
lookups). -/
structure Item where
  uuid : String
  id : String
  deriving DecidableEq

/-- A scripted HTTP response: status code plus the JSON fields the module
reads (totalItems, items, status), and the raw body used as the message of a
raised F5ModuleError. -/
structure Resp where
  code : Nat
  totalItems : Nat
  items : List Item
  status : String
  raw : String
  deriving DecidableEq

inductive Method where
  | get
  | post
  | delete
  deriving DecidableEq

/-- An issued request, as recorded in the trace. -/
structure Req where
  method : Method
  uri : String
  deriving DecidableEq

/-- Abnormal termination: an F5ModuleError carrying a message, a Python level
fault (items[0] of an empty list), or exhaustion of the scripted responses
(the model artifact marking that the run would issue more requests than the
script provides). -/
inductive RunErr where
  | f5 (msg : String)
  | py
  | oracle
  deriving DecidableEq

/-- The interaction state: remaining scripted responses and the trace of
requests issued so far. -/
structure St where
  script : List Resp
  trace : List Req
  deriving DecidableEq

def M (α : Type) : Type := St → Except RunErr α × St

def M.pure {α : Type} (a : α) : M α := fun s => (Except.ok a, s)

def M.bind {α β : Type} (x : M α) (f : α → M β) : M β := fun s =>
  match x s with
  | (Except.ok a, s1) => f a s1
  | (Except.error e, s1) => (Except.error e, s1)

instance : Monad M where
  pure := M.pure
  bind := M.bind

/-- Raising F5ModuleError with the given message. -/
def throwF5 {α : Type} (msg : String) : M α := fun s => (Except.error (RunErr.f5 msg), s)

/-- A Python level fault. -/
def throwPy {α : Type} : M α := fun s => (Except.error RunErr.py, s)

/-- Issue a request: record it in the trace and consume the next scripted
response. -/
def call (m : Method) (uri : String) : M Resp := fun s =>
  match s.script with
  | [] => (Except.error RunErr.oracle, ⟨[], s.trace ++ [⟨m, uri⟩]⟩)
  | r :: rest => (Except.ok r, ⟨rest, s.trace ++ [⟨m, uri⟩]⟩)

def httpGet (uri : String) : M Resp := call Method.get uri
def httpPost (uri : String) : M Resp := call Method.post uri
def httpDelete (uri : String) : M Resp := call Method.delete uri

/-- Python items[0]: IndexError on an empty list. -/
def headPy : List Item → M Item
  | [] => throwPy
  | i :: _ => M.pure i

/-- Membership of a status code in the list [200, 201, 202] tested by the
module after each checked request. -/
def in2xx (c : Nat) : Bool := c == 200 || c == 201 || c == 202

/-- The parameters of one module run (the want side). -/
structure ModuleParams where
  key : String
  offering : String
  device : String
  managed : Option Bool
  device_port : Option Int
  device_username : Option String
  device_password : Option String
  unit_of_measure : Option String
  state : String
  deriving DecidableEq

/-- Python truthiness of an optional boolean (None and False are falsy). -/
def truthy : Option Bool → Bool
  | some true => true
  | _ => false

/-- Character class of a dotted quad IPv4 literal. -/
def ipv4Char (c : Char) : Bool := c.isDigit || c == '.'

/-- One decimal octet between 0 and 255. -/
def octetOk (s : String) : Bool :=
  decide (0 < s.length) && decide (s.length ≤ 3) && s.toList.all Char.isDigit &&
    decide ((s.toNat?.getD 256) ≤ 255)

def isValidIPv4 (s : String) : Bool :=
  s.toList.all ipv4Char &&
    (match s.split (fun c => c == '.') with
     | [a, b, c, d] => octetOk a && octetOk b && octetOk c && octetOk d
     | _ => false)

/-- Character class of an IPv6 literal. -/
def ipv6Char (c : Char) : Bool :=
  c.isDigit || (decide ('a' ≤ c) && decide (c ≤ 'f')) ||
    (decide ('A' ≤ c) && decide (c ≤ 'F')) || c == ':'

def isValidIPv6 (s : String) : Bool :=
  s.toList.contains ':' && s.toList.all ipv6Char

/-- Modelled from the spec: is_valid_ip comes from module_utils/ipaddress,
which is not under src.  The spec describes the device classification as IP
vs UUID vs hostname classification via pattern match; an IP literal is
modelled as a dotted quad IPv4 address or a colon containing IPv6 style
literal over hexadecimal digits and colons. -/
def is_valid_ip (s : String) : Bool := isValidIPv4 s || isValidIPv6 s

/-- Alphanumeric character, the class written in the UUID pattern of the
source. -/
def alnum (c : Char) : Bool :=
  (decide ('A' ≤ c) && decide (c ≤ 'Z')) || (decide ('a' ≤ c) && decide (c ≤ 'z')) ||
    c.isDigit

/-- Prefix match (re.match) of the UUID pattern of ModuleParameters:
groups of 8, 4, 4, 4 and 12 alphanumeric characters separated by dashes;
trailing characters are allowed because the pattern is not anchored at the
end. -/
def uuidMatch (s : String) : Bool :=
  let cs := s.toList
  (cs.take 8).length == 8 && (cs.take 8).all alnum &&
  cs.get? 8 == some '-' &&
  ((cs.drop 9).take 4).length == 4 && ((cs.drop 9).take 4).all alnum &&
  cs.get? 13 == some '-' &&
  ((cs.drop 14).take 4).length == 4 && ((cs.drop 14).take 4).all alnum &&
  cs.get? 18 == some '-' &&
  ((cs.drop 19).take 4).length == 4 && ((cs.drop 19).take 4).all alnum &&
  cs.get? 23 == some '-' &&
  ((cs.drop 24).take 12).length == 12 && ((cs.drop 24).take 12).all alnum

/-- ModuleParameters.device_is_address. -/
def device_is_address (p : ModuleParams) : Bool := is_valid_ip p.device

/-- ModuleParameters.device_is_id. -/
def device_is_id (p : ModuleParams) : Bool := uuidMatch p.device

/-- ModuleParameters.device_is_name: neither an address nor an id. -/
def device_is_name (p : ModuleParams) : Bool :=
  !device_is_address p && !device_is_id p

/-- ModuleParameters.device_address: the device string when it is an
address, else None. -/
def device_address (p : ModuleParams) : Option String :=
  if device_is_address p then some p.device else none

/-- Wrap a string in the single quotes used inside filter expressions. -/
def quote1 (x : String) : String := "\x27" ++ x ++ "\x27"

/-- The filter computed at the top of ModuleParameters.device_reference;
the final branch raises F5ModuleError about an unknown device format. -/
def deviceFilterM (p : ModuleParams) : M String :=
  if device_is_address p then
    M.pure ("address+eq+" ++ "\x27" ++ p.device ++ "..." ++ p.device ++ "\x27")
  else if device_is_name p then
    M.pure ("hostname+eq+" ++ quote1 p.device)
  else if device_is_id p then
    M.pure ("uuid+eq+" ++ quote1 p.device)
  else
    throwF5 ("Unknown device format " ++ quote1 p.device)

def deviceGroupsUri (filter : String) : String :=
  "/mgmt/shared/resolver/device-groups/cm-bigip-allBigIpDevices/devices/?$filter=" ++
    filter ++ "&$top=1"

def deviceLinkOf (id : String) : String :=
  "https://localhost/mgmt/shared/resolver/device-groups/cm-bigip-allBigIpDevices/devices/" ++ id

/-- ModuleParameters.device_reference: None when the device is not managed;
otherwise look the device up in the allBigIpDevices group and build the
reference link from the uuid of the first item. -/
def deviceReferenceM (p : ModuleParams) : M (Option String) :=
  if !truthy p.managed then M.pure none
  else
    M.bind (deviceFilterM p) fun filter =>
    M.bind (httpGet (deviceGroupsUri filter)) fun resp =>
    if !in2xx resp.code then throwF5 resp.raw
    else if resp.code == 200 && resp.totalItems == 0 then
      throwF5 "No device with the specified address was found."
    else
      M.bind (headPy resp.items) fun item =>
      M.pure (some (deviceLinkOf item.uuid))

def offeringsUri (key offering : String) : String :=
  "/mgmt/cm/device/licensing/pool/utility/licenses/" ++ key ++
    "/offerings?$filter=(name+eq+" ++ quote1 offering ++ ")&$top=1"

/-- ModuleParameters.offering_id: filtered offering lookup; a 200 response
with totalItems equal to zero raises the descriptive error, any non 2xx
response raises with the raw body, otherwise the id of the first item is
returned. -/
def offeringIdM (p : ModuleParams) : M String :=
  M.bind (httpGet (offeringsUri p.key p.offering)) fun resp =>
  if !in2xx resp.code then throwF5 resp.raw
  else if resp.code == 200 && resp.totalItems == 0 then
    throwF5 "No offering with the specified name was found."
  else
    M.bind (headPy resp.items) fun item => M.pure item.id

/-- The filter computed at the top of ModuleParameters.member_id; the final
branch raises F5ModuleError about an unknown device format. -/
def memberFilterM (p : ModuleParams) : M String :=
  if device_is_address p then
    M.pure ("deviceAddress+eq+" ++ "\x27" ++ p.device ++ "..." ++ p.device ++ "\x27")
  else if device_is_name p then
    M.pure ("deviceName+eq+" ++ quote1 p.device)
  else if device_is_id p then
    M.pure ("deviceMachineId+eq+" ++ quote1 p.device)
  else
    throwF5 ("Unknown device format " ++ quote1 p.device)

def membersBaseUri (key oid : String) : String :=
  "/mgmt/cm/device/licensing/pool/utility/licenses/" ++ key ++ "/offerings/" ++
    oid ++ "/members/"

def memberQueryUri (key oid filter : String) : String :=
  membersBaseUri key oid ++ "?$filter=" ++ filter

/-- ModuleParameters.member_id: computes the device filter, resolves the
offering id (a further GET, since every property access in the Python source
reruns its lookups), then queries the members collection.  A 200 response
with totalItems equal to zero yields None (not assigned); otherwise the id
of the first item. -/
def memberIdM (p : ModuleParams) : M (Option String) :=
  M.bind (memberFilterM p) fun filter =>
  M.bind (offeringIdM p) fun oid =>
  M.bind (httpGet (memberQueryUri p.key oid filter)) fun resp =>
  if !in2xx resp.code then throwF5 resp.raw
  else if resp.code == 200 && resp.totalItems == 0 then M.pure none
  else M.bind (headPy resp.items) fun item => M.pure (some item.id)

/-- Python str formatting of a possibly missing member id. -/
def optStr : Option String → String
  | none => "None"
  | some s => s

def memberUri (key oid mid : String) : String := membersBaseUri key oid ++ mid

/-- ModuleManager.exists: if member_id resolves to None the resource does not
exist; otherwise the member uri is built (re-issuing the offering and member
lookups, as the Python property accesses do) and the member resource is
fetched directly: 404 means absent, any other non 2xx code raises, a 2xx
code means present. -/
def existsM (p : ModuleParams) : M Bool :=
  M.bind (memberIdM p) fun mid =>
  match mid with
  | none => M.pure false
  | some _ =>
    M.bind (offeringIdM p) fun oid =>
    M.bind (memberIdM p) fun mid2 =>
    M.bind (httpGet (memberUri p.key oid (optStr mid2))) fun resp =>
    if resp.code == 404 then M.pure false
    else if !in2xx resp.code then throwF5 resp.raw
    else M.pure true

/-- ModuleManager._set_changed_options reads every returnable attribute of
want; among them only device_reference performs requests (when the device is
managed); the others are pure reads of the parameters. -/
def setChangedOptionsM (p : ModuleParams) : M Unit :=
  M.bind (deviceReferenceM p) fun _ => M.pure ()

/-- ModuleManager.create_on_device: the member collection uri re-resolves the
offering id, then a POST is issued and a non 2xx response raises. -/
def createOnDeviceM (p : ModuleParams) : M Bool :=
  M.bind (offeringIdM p) fun oid =>
  M.bind (httpPost (membersBaseUri p.key oid)) fun resp =>
  if !in2xx resp.code then throwF5 resp.raw
  else M.pure true

/-- ModuleManager.wait_for_device_to_be_licensed, as a function of the
pending response script: while count < 3, a GET is issued; a non 2xx
response raises; a LICENSED status increments count, any other status resets
it to zero.  The result carries the loop outcome, the remaining script and
the number of requests issued (when the script runs out while the loop is
still polling the outcome is the oracle marker). -/
def waitLoop (count : Nat) : List Resp → Except RunErr Unit × List Resp × Nat
  | [] =>
    if 3 ≤ count then (Except.ok (), [], 0)
    else (Except.error RunErr.oracle, [], 1)
  | r :: rest =>
    if 3 ≤ count then (Except.ok (), r :: rest, 0)
    else if !in2xx r.code then (Except.error (RunErr.f5 r.raw), rest, 1)
    else if r.status == "LICENSED" then
      let x := waitLoop (count + 1) rest
      (x.1, x.2.1, x.2.2 + 1)
    else
      let x := waitLoop 0 rest
      (x.1, x.2.1, x.2.2 + 1)

/-- ModuleManager.wait_for_device_to_be_licensed: the member uri is built
first (re-issuing the offering and member lookups), then the polling loop
runs. -/
def waitForLicensedM (p : ModuleParams) : M Unit :=
  M.bind (offeringIdM p) fun oid =>
  M.bind (memberIdM p) fun mid => fun s =>
  let x := waitLoop 0 s.script
  (x.1, ⟨x.2.1, s.trace ++ List.replicate x.2.2 ⟨Method.get, memberUri p.key oid (optStr mid)⟩⟩)

/-- ModuleManager.create: collect the changed options, validate credentials
for unmanaged devices, short circuit in check mode, then POST, re-check
existence, and poll for the LICENSED status. -/
def createM (p : ModuleParams) (checkMode : Bool) : M Bool :=
  M.bind (setChangedOptionsM p) fun _ =>
  M.bind
    (if !truthy p.managed then
       if p.device_username == none then
         throwF5 "You must specify a \x27device_username\x27 when working with unmanaged devices."
       else if p.device_password == none then
         throwF5 "You must specify a \x27device_password\x27 when working with unmanaged devices."
       else M.pure ()
     else M.pure ()) fun _ =>
  if checkMode then M.pure true
  else
    M.bind (createOnDeviceM p) fun _ =>
    M.bind (existsM p) fun ex =>
    if !ex then throwF5 "Failed to license the remote device."
    else M.bind (waitForLicensedM p) fun _ => M.pure true

/-- ModuleManager.remove_from_device: the member uri is built (re-issuing
the offering and member lookups); for unmanaged devices the request body
re-reads member_id (a further pair of lookups); then DELETE is issued.  The
DELETE response is not inspected. -/
def removeFromDeviceM (p : ModuleParams) : M Unit :=
  M.bind (offeringIdM p) fun oid =>
  M.bind (memberIdM p) fun mid =>
  M.bind
    (if !truthy p.managed then M.bind (memberIdM p) fun _ => M.pure ()
     else M.pure ()) fun _ =>
  M.bind (httpDelete (memberUri p.key oid (optStr mid))) fun _ =>
  M.pure ()

/-- ModuleManager.remove: collect the changed options, short circuit in
check mode, then DELETE and verify absence. -/
def removeM (p : ModuleParams) (checkMode : Bool) : M Bool :=
  M.bind (setChangedOptionsM p) fun _ =>
  if checkMode then M.pure true
  else
    M.bind (removeFromDeviceM p) fun _ =>
    M.bind (existsM p) fun ex =>
    if ex then throwF5 "Failed to delete the resource."
    else M.pure true

/-- ModuleManager.present. -/
def presentM (p : ModuleParams) (checkMode : Bool) : M Bool :=
  M.bind (existsM p) fun ex =>
  if ex then M.pure false else createM p checkMode

/-- ModuleManager.absent. -/
def absentM (p : ModuleParams) (checkMode : Bool) : M Bool :=
  M.bind (existsM p) fun ex =>
  if ex then removeM p checkMode else M.pure false

/-- ModuleManager.exec_module: dispatch on state.  The reported changes are
a pure rendering of collected values and carry no behaviour; the modelled
result is the changed flag. -/
def execModuleM (p : ModuleParams) (checkMode : Bool) : M Bool :=
  if p.state == "present" then presentM p checkMode
  else if p.state == "absent" then absentM p checkMode
  else M.pure false

/-- Run the module against a response script, starting from the empty
trace. -/
def runModule (p : ModuleParams) (checkMode : Bool) (script : List Resp) :
    Except RunErr Bool × St :=
  execModuleM p checkMode ⟨script, []⟩

/-- The stored values of a UsableChanges object (the change set sent to the
API). -/
structure ChangeVals where
  managed : Option Bool
  device_port : Option Int
  device_username : Option String
  device_password : Option String
  device_address : Option String
  device_reference : Option String
  deriving DecidableEq

namespace UsableChanges

/-- UsableChanges.device_port: suppressed for managed devices. -/
def device_port (v : ChangeVals) : Option Int :=
  if truthy v.managed then none else v.device_port

/-- UsableChanges.device_username: suppressed for managed devices. -/
def device_username (v : ChangeVals) : Option String :=
  if truthy v.managed then none else v.device_username

/-- UsableChanges.device_password: suppressed for managed devices. -/
def device_password (v : ChangeVals) : Option String :=
  if truthy v.managed then none else v.device_password

/-- UsableChanges.device_reference: suppressed for unmanaged devices. -/
def device_reference (v : ChangeVals) : Option String :=
  if !truthy v.managed then none else v.device_reference

/-- UsableChanges.device_address: suppressed for managed devices. -/
def device_address (v : ChangeVals) : Option String :=
  if truthy v.managed then none else v.device_address

/-- UsableChanges.managed: always None. -/
def managed (_ : ChangeVals) : Option Bool := none

end UsableChanges

/-! Evaluation infrastructure.  EvalTo m scr res rem ms states that the
computation m, run on script scr (under any starting trace), yields result
res, leaves script rem, and appends requests whose methods are ms. -/

def EvalTo {α : Type} (m : M α) (scr : List Resp) (res : Except RunErr α)
    (rem : List Resp) (ms : List Method) : Prop :=
  ∀ t : List Req, ∃ reqs : List Req,
    m ⟨scr, t⟩ = (res, ⟨rem, t ++ reqs⟩) ∧ List.map Req.method reqs = ms

theorem evalTo_pure {α : Type} (a : α) (scr : List Resp) :
    EvalTo (M.pure a) scr (Except.ok a) scr [] := by
  intro t
  exact ⟨[], by simp [M.pure], rfl⟩

theorem evalTo_throwF5 {α : Type} (msg : String) (scr : List Resp) :
    EvalTo (throwF5 msg : M α) scr (Except.error (RunErr.f5 msg)) scr [] := by
  intro t
  exact ⟨[], by simp [throwF5], rfl⟩

theorem evalTo_call (m : Method) (uri : String) (r : Resp) (rest : List Resp) :
    EvalTo (call m uri) (r :: rest) (Except.ok r) rest [m] := by
  intro t
  exact ⟨[⟨m, uri⟩], by simp [call], rfl⟩

theorem evalTo_bind {α β : Type} {m : M α} {f : α → M β} {scr rem1 rem2 : List Resp}
    {ms1 ms2 : List Method} {res : Except RunErr β} {a : α}
    (h1 : EvalTo m scr (Except.ok a) rem1 ms1)
    (h2 : EvalTo (f a) rem1 res rem2 ms2) :
    EvalTo (M.bind m f) scr res rem2 (ms1 ++ ms2) := by
  intro t
  obtain ⟨r1, he1, hm1⟩ := h1 t
  obtain ⟨r2, he2, hm2⟩ := h2 (t ++ r1)
  refine ⟨r1 ++ r2, ?_, ?_⟩
  · simp [M.bind, he1, he2]
  · simp [hm1, hm2]

theorem evalTo_bind_err {α β : Type} {m : M α} {f : α → M β} {scr rem : List Resp}
    {ms : List Method} {e : RunErr}
    (h1 : EvalTo m scr (Except.error e) rem ms) :
    EvalTo (M.bind m f) scr (Except.error e) rem ms := by
  intro t
  obtain ⟨r1, he1, hm1⟩ := h1 t
  exact ⟨r1, by simp [M.bind, he1], hm1⟩

theorem evalTo_congr {α : Type} {m m2 : M α} {scr rem : List Resp}
    {ms : List Method} {res : Except RunErr α}
    (h : EvalTo m scr res rem ms) (he : m2 = m) :
    EvalTo m2 scr res rem ms := by
  rw [he]; exact h

theorem evalTo_cast {α : Type} {m : M α} {scr rem : List Resp} {ms ms2 : List Method}
    {res : Except RunErr α} (h : EvalTo m scr res rem ms) (hm : ms = ms2) :
    EvalTo m scr res rem ms2 := hm ▸ h

/-! Classification of device strings. -/

/-- A valid IP literal never matches the UUID pattern: its ninth character
cannot be a dash. -/
theorem ip_not_uuid (s : String) (h : is_valid_ip s = true) : uuidMatch s = false := by
  by_contra hne
  have hu : uuidMatch s = true := by
    cases hx : uuidMatch s
    · exact absurd hx hne
    · rfl
  have hdash : s.toList.get? 8 = some '-' := by
    simp only [uuidMatch, Bool.and_eq_true, beq_iff_eq] at hu
    tauto
  have hmem : '-' ∈ s.toList := List.get?_mem hdash
  rcases Bool.or_eq_true _ _ |>.mp h with h4 | h6
  · have hall : ∀ c ∈ s.toList, ipv4Char c = true := by
      have := (Bool.and_eq_true _ _).mp h4 |>.1
      exact fun c hc => List.all_eq_true.mp this c hc
    have := hall '-' hmem
    simp [ipv4Char] at this
  · have hall : ∀ c ∈ s.toList, ipv6Char c = true := by
      have := (Bool.and_eq_true _ _).mp h6 |>.2
      exact fun c hc => List.all_eq_true.mp this c hc
    have := hall '-' hmem
    simp [ipv6Char] at this

/-- The three device classes are exhaustive and mutually exclusive. -/
theorem device_class_cases (p : ModuleParams) :
    (device_is_address p = true ∧ device_is_id p = false ∧ device_is_name p = false) ∨
    (device_is_address p = false ∧ device_is_id p = true ∧ device_is_name p = false) ∨
    (device_is_address p = false ∧ device_is_id p = false ∧ device_is_name p = true) := by
  cases ha : device_is_address p
  · cases hi : device_is_id p
    · exact Or.inr (Or.inr ⟨rfl, rfl, by simp [device_is_name, ha, hi]⟩)
    · exact Or.inr (Or.inl ⟨rfl, rfl, by simp [device_is_name, ha, hi]⟩)
  · have hi : device_is_id p = false := ip_not_uuid p.device ha
    exact Or.inl ⟨rfl, hi, by simp [device_is_name, ha, hi]⟩

/-- The member filter always evaluates purely to some string: the unknown
format branch is unreachable. -/
theorem memberFilterM_total (p : ModuleParams) (scr : List Resp) :
    ∃ f : String, EvalTo (memberFilterM p) scr (Except.ok f) scr [] := by
  rcases device_class_cases p with ⟨ha, hi, hn⟩ | ⟨ha, hi, hn⟩ | ⟨ha, hi, hn⟩
  · exact ⟨_, by rw [memberFilterM, if_pos ha]; exact evalTo_pure _ _⟩
  · exact ⟨_, by
      rw [memberFilterM, if_neg (by simp [ha]), if_neg (by simp [hn]), if_pos hi]
      exact evalTo_pure _ _⟩
  · exact ⟨_, by
      rw [memberFilterM, if_neg (by simp [ha]), if_pos hn]
      exact evalTo_pure _ _⟩

/-- The device filter always evaluates purely to some string: the unknown
format branch is unreachable. -/
theorem deviceFilterM_total (p : ModuleParams) (scr : List Resp) :
    ∃ f : String, EvalTo (deviceFilterM p) scr (Except.ok f) scr [] := by
  rcases device_class_cases p with ⟨ha, hi, hn⟩ | ⟨ha, hi, hn⟩ | ⟨ha, hi, hn⟩
  · exact ⟨_, by rw [deviceFilterM, if_pos ha]; exact evalTo_pure _ _⟩
  · exact ⟨_, by
      rw [deviceFilterM, if_neg (by simp [ha]), if_neg (by simp [hn]), if_pos hi]
      exact evalTo_pure _ _⟩
  · exact ⟨_, by
      rw [deviceFilterM, if_neg (by simp [ha]), if_pos hn]
      exact evalTo_pure _ _⟩

/-! Evaluation lemmas for the individual lookups. -/

theorem offeringIdM_hit (p : ModuleParams) (tn : Nat) (it : Item) (l : List Item)
    (sa ra : String) (rest : List Resp) (htn : tn ≠ 0) :
    EvalTo (offeringIdM p) (Resp.mk 200 tn (it :: l) sa ra :: rest)
      (Except.ok it.id) rest [Method.get] := by
  simp only [offeringIdM, httpGet]
  refine evalTo_cast (evalTo_bind (evalTo_call _ _ _ _)
    (?_ : EvalTo _ _ _ _ [])) (by simp)
  simp only [in2xx, headPy]
  rw [if_neg (by decide), if_neg (by simp [htn])]
  exact evalTo_bind (evalTo_pure _ _) (evalTo_pure _ _)

theorem offeringIdM_miss (p : ModuleParams) (l : List Item)
    (sa ra : String) (rest : List Resp) :
    EvalTo (offeringIdM p) (Resp.mk 200 0 l sa ra :: rest)
      (Except.error (RunErr.f5 "No offering with the specified name was found."))
      rest [Method.get] := by
  simp only [offeringIdM, httpGet]
  refine evalTo_cast (evalTo_bind (evalTo_call _ _ _ _)
    (?_ : EvalTo _ _ _ _ [])) (by simp)
  simp only [in2xx]
  rw [if_neg (by decide), if_pos (by decide)]
  exact evalTo_throwF5 _ _

theorem memberIdM_hit (p : ModuleParams) (tn tm : Nat) (it jt : Item)
    (l k : List Item) (sa ra sb rb : String) (rest : List Resp)
    (htn : tn ≠ 0) (htm : tm ≠ 0) :
    EvalTo (memberIdM p)
      (Resp.mk 200 tn (it :: l) sa ra :: Resp.mk 200 tm (jt :: k) sb rb :: rest)
      (Except.ok (some jt.id)) rest [Method.get, Method.get] := by
  obtain ⟨f, hf⟩ := memberFilterM_total p
    (Resp.mk 200 tn (it :: l) sa ra :: Resp.mk 200 tm (jt :: k) sb rb :: rest)
  simp only [memberIdM, httpGet]
  refine evalTo_cast (evalTo_bind hf
    (?_ : EvalTo _ _ _ _ [Method.get, Method.get])) (by simp)
  refine evalTo_cast (evalTo_bind (offeringIdM_hit p tn it l sa ra _ htn)
    (?_ : EvalTo _ _ _ _ [Method.get])) (by simp)
  refine evalTo_cast (evalTo_bind (evalTo_call _ _ _ _)
    (?_ : EvalTo _ _ _ _ [])) (by simp)
  simp only [in2xx, headPy]
  rw [if_neg (by decide), if_neg (by simp [htm])]
  exact evalTo_bind (evalTo_pure _ _) (evalTo_pure _ _)

theorem memberIdM_none (p : ModuleParams) (tn : Nat) (it : Item)
    (l k : List Item) (sa ra sb rb : String) (rest : List Resp)
    (htn : tn ≠ 0) :
    EvalTo (memberIdM p)
      (Resp.mk 200 tn (it :: l) sa ra :: Resp.mk 200 0 k sb rb :: rest)
      (Except.ok none) rest [Method.get, Method.get] := by
  obtain ⟨f, hf⟩ := memberFilterM_total p
    (Resp.mk 200 tn (it :: l) sa ra :: Resp.mk 200 0 k sb rb :: rest)
  simp only [memberIdM, httpGet]
  refine evalTo_cast (evalTo_bind hf
    (?_ : EvalTo _ _ _ _ [Method.get, Method.get])) (by simp)
  refine evalTo_cast (evalTo_bind (offeringIdM_hit p tn it l sa ra _ htn)
    (?_ : EvalTo _ _ _ _ [Method.get])) (by simp)
  refine evalTo_cast (evalTo_bind (evalTo_call _ _ _ _)
    (?_ : EvalTo _ _ _ _ [])) (by simp)
  simp only [in2xx]
  rw [if_neg (by decide), if_pos (by decide)]
  exact evalTo_pure _ _

theorem memberIdM_err (p : ModuleParams) (l : List Item)
    (sa ra : String) (rest : List Resp) :
    EvalTo (memberIdM p) (Resp.mk 200 0 l sa ra :: rest)
      (Except.error (RunErr.f5 "No offering with the specified name was found."))
      rest [Method.get] := by
  obtain ⟨f, hf⟩ := memberFilterM_total p (Resp.mk 200 0 l sa ra :: rest)
  simp only [memberIdM]
  refine evalTo_cast (evalTo_bind hf
    (?_ : EvalTo _ _ _ _ [Method.get])) (by simp)
  exact evalTo_bind_err (offeringIdM_miss p l sa ra rest)

/-- ModuleManager.exists on a script whose member filter query reports an
empty result set: no member id, so the answer is False after the two lookup
requests. -/
theorem existsM_miss (p : ModuleParams) (tn : Nat) (it : Item)
    (l k : List Item) (sa ra sb rb : String) (rest : List Resp)
    (htn : tn ≠ 0) :
    EvalTo (existsM p)
      (Resp.mk 200 tn (it :: l) sa ra :: Resp.mk 200 0 k sb rb :: rest)
      (Except.ok false) rest [Method.get, Method.get] := by
  simp only [existsM]
  refine evalTo_cast (evalTo_bind (memberIdM_none p tn it l k sa ra sb rb rest htn)
    (?_ : EvalTo _ _ _ _ [])) (by simp)
  exact evalTo_pure _ _

/-- ModuleManager.exists on a script where both member lookups return an id
and the direct member GET answers with a 2xx code: the resource exists, after
six lookup requests (every property access re-issues its lookups). -/
theorem existsM_hit (p : ModuleParams)
    (tn1 tn3 tn4 tm2 tm5 : Nat) (it1 it3 it4 jt2 jt5 : Item)
    (l1 l3 l4 k2 k5 : List Item)
    (sa1 ra1 sa3 ra3 sa4 ra4 sb2 rb2 sb5 rb5 : String)
    (r6 : Resp) (rest : List Resp)
    (h1 : tn1 ≠ 0) (h3 : tn3 ≠ 0) (h4 : tn4 ≠ 0) (h2 : tm2 ≠ 0) (h5 : tm5 ≠ 0)
    (h6 : in2xx r6.code = true) :
    EvalTo (existsM p)
      (Resp.mk 200 tn1 (it1 :: l1) sa1 ra1 :: Resp.mk 200 tm2 (jt2 :: k2) sb2 rb2 ::
       Resp.mk 200 tn3 (it3 :: l3) sa3 ra3 :: Resp.mk 200 tn4 (it4 :: l4) sa4 ra4 ::
       Resp.mk 200 tm5 (jt5 :: k5) sb5 rb5 :: r6 :: rest)
      (Except.ok true) rest
      [Method.get, Method.get, Method.get, Method.get, Method.get, Method.get] := by
  simp only [existsM, httpGet]
  refine evalTo_cast (evalTo_bind
    (memberIdM_hit p tn1 tm2 it1 jt2 l1 k2 sa1 ra1 sb2 rb2 _ h1 h2)
    (?_ : EvalTo _ _ _ _ [Method.get, Method.get, Method.get, Method.get])) (by simp)
  refine evalTo_cast (evalTo_bind (offeringIdM_hit p tn3 it3 l3 sa3 ra3 _ h3)
    (?_ : EvalTo _ _ _ _ [Method.get, Method.get, Method.get])) (by simp)
  refine evalTo_cast (evalTo_bind
    (memberIdM_hit p tn4 tm5 it4 jt5 l4 k5 sa4 ra4 sb5 rb5 _ h4 h5)
    (?_ : EvalTo _ _ _ _ [Method.get])) (by simp)
  refine evalTo_cast (evalTo_bind (evalTo_call _ _ _ _)
    (?_ : EvalTo _ _ _ _ [])) (by simp)
  have hne : (r6.code == 404) = false := by
    cases hc : r6.code == 404
    · rfl
    · have hc4 : r6.code = 404 := by simpa using hc
      rw [hc4] at h6
      simp [in2xx] at h6
  rw [if_neg (by simp [hne]), if_neg (by simp [h6])]
  exact evalTo_pure _ _

/-- ModuleManager.exists on a script where both member lookups return an id
but the direct member GET answers 404: the resource does not exist. -/
theorem existsM_notFound (p : ModuleParams)
    (tn1 tn3 tn4 tm2 tm5 : Nat) (it1 it3 it4 jt2 jt5 : Item)
    (l1 l3 l4 k2 k5 : List Item)
    (sa1 ra1 sa3 ra3 sa4 ra4 sb2 rb2 sb5 rb5 : String)
    (r6 : Resp) (rest : List Resp)
    (h1 : tn1 ≠ 0) (h3 : tn3 ≠ 0) (h4 : tn4 ≠ 0) (h2 : tm2 ≠ 0) (h5 : tm5 ≠ 0)
    (h6 : r6.code = 404) :
    EvalTo (existsM p)
      (Resp.mk 200 tn1 (it1 :: l1) sa1 ra1 :: Resp.mk 200 tm2 (jt2 :: k2) sb2 rb2 ::
       Resp.mk 200 tn3 (it3 :: l3) sa3 ra3 :: Resp.mk 200 tn4 (it4 :: l4) sa4 ra4 ::
       Resp.mk 200 tm5 (jt5 :: k5) sb5 rb5 :: r6 :: rest)
      (Except.ok false) rest
      [Method.get, Method.get, Method.get, Method.get, Method.get, Method.get] := by
  simp only [existsM, httpGet]
  refine evalTo_cast (evalTo_bind
    (memberIdM_hit p tn1 tm2 it1 jt2 l1 k2 sa1 ra1 sb2 rb2 _ h1 h2)
    (?_ : EvalTo _ _ _ _ [Method.get, Method.get, Method.get, Method.get])) (by simp)
  refine evalTo_cast (evalTo_bind (offeringIdM_hit p tn3 it3 l3 sa3 ra3 _ h3)
    (?_ : EvalTo _ _ _ _ [Method.get, Method.get, Method.get])) (by simp)
  refine evalTo_cast (evalTo_bind
    (memberIdM_hit p tn4 tm5 it4 jt5 l4 k5 sa4 ra4 sb5 rb5 _ h4 h5)
    (?_ : EvalTo _ _ _ _ [Method.get])) (by simp)
  refine evalTo_cast (evalTo_bind (evalTo_call _ _ _ _)
    (?_ : EvalTo _ _ _ _ [])) (by simp)
  rw [if_pos (by simp [h6])]
  exact evalTo_pure _ _

/-- ModuleParameters.device_reference is a pure None for unmanaged devices. -/
theorem deviceReferenceM_unmanaged (p : ModuleParams) (scr : List Resp)
    (hm : truthy p.managed = false) :
    EvalTo (deviceReferenceM p) scr (Except.ok none) scr [] := by
  simp only [deviceReferenceM]
  rw [if_pos (by simp [hm])]
  exact evalTo_pure _ _

/-- ModuleParameters.device_reference for a managed device whose lookup
succeeds. -/
theorem deviceReferenceM_hit (p : ModuleParams) (tn : Nat) (it : Item)
    (l : List Item) (sa ra : String) (rest : List Resp)
    (hm : truthy p.managed = true) (htn : tn ≠ 0) :
    EvalTo (deviceReferenceM p) (Resp.mk 200 tn (it :: l) sa ra :: rest)
      (Except.ok (some (deviceLinkOf it.uuid))) rest [Method.get] := by
  obtain ⟨f, hf⟩ := deviceFilterM_total p (Resp.mk 200 tn (it :: l) sa ra :: rest)
  simp only [deviceReferenceM, httpGet]
  rw [if_neg (by simp [hm])]
  refine evalTo_cast (evalTo_bind hf (?_ : EvalTo _ _ _ _ [Method.get])) (by simp)
  refine evalTo_cast (evalTo_bind (evalTo_call _ _ _ _)
    (?_ : EvalTo _ _ _ _ [])) (by simp)
  simp only [in2xx, headPy]
  rw [if_neg (by decide), if_neg (by simp [htn])]
  exact evalTo_bind (evalTo_pure _ _) (evalTo_pure _ _)

theorem setChangedOptionsM_unmanaged (p : ModuleParams) (scr : List Resp)
    (hm : truthy p.managed = false) :
    EvalTo (setChangedOptionsM p) scr (Except.ok ()) scr [] := by
  simp only [setChangedOptionsM]
  exact evalTo_cast
    (evalTo_bind (deviceReferenceM_unmanaged p scr hm) (evalTo_pure _ _)) (by simp)

theorem setChangedOptionsM_hit (p : ModuleParams) (tn : Nat) (it : Item)
    (l : List Item) (sa ra : String) (rest : List Resp)
    (hm : truthy p.managed = true) (htn : tn ≠ 0) :
    EvalTo (setChangedOptionsM p) (Resp.mk 200 tn (it :: l) sa ra :: rest)
      (Except.ok ()) rest [Method.get] := by
  simp only [setChangedOptionsM]
  exact evalTo_cast
    (evalTo_bind (deviceReferenceM_hit p tn it l sa ra rest hm htn)
      (evalTo_pure _ _)) (by simp)

/-- A request list whose methods are all get passes the all get check. -/
theorem all_get_of_map (reqs : List Req) (n : Nat)
    (hm : List.map Req.method reqs = List.replicate n Method.get) :
    reqs.all (fun q => q.method == Method.get) = true := by
  rw [List.all_eq_true]
  intro q hq
  have hmem : q.method ∈ List.map Req.method reqs := List.mem_map_of_mem _ hq
  rw [hm] at hmem
  have := List.eq_of_mem_replicate hmem
  simp [this]

/-- C2: with state present, when the license assignment already exists (the
offering and member lookups return ids and the direct member GET answers with
a 2xx code), exec_module reports changed equal to False and every issued
request is a GET: no POST reaches the members endpoint, so a second present
run after a successful licensing reports no change. -/
theorem claim_c2_present_idempotent (p : ModuleParams) (cm : Bool)
    (tn1 tn3 tn4 tm2 tm5 : Nat) (it1 it3 it4 jt2 jt5 : Item)
    (l1 l3 l4 k2 k5 : List Item)
    (sa1 ra1 sa3 ra3 sa4 ra4 sb2 rb2 sb5 rb5 : String)
    (r6 : Resp) (rest : List Resp)
    (hstate : p.state = "present")
    (h1 : tn1 ≠ 0) (h3 : tn3 ≠ 0) (h4 : tn4 ≠ 0) (h2 : tm2 ≠ 0) (h5 : tm5 ≠ 0)
    (h6 : in2xx r6.code = true) :
    (runModule p cm
      (Resp.mk 200 tn1 (it1 :: l1) sa1 ra1 :: Resp.mk 200 tm2 (jt2 :: k2) sb2 rb2 ::
       Resp.mk 200 tn3 (it3 :: l3) sa3 ra3 :: Resp.mk 200 tn4 (it4 :: l4) sa4 ra4 ::
       Resp.mk 200 tm5 (jt5 :: k5) sb5 rb5 :: r6 :: rest)).1 = Except.ok false ∧
    (runModule p cm
      (Resp.mk 200 tn1 (it1 :: l1) sa1 ra1 :: Resp.mk 200 tm2 (jt2 :: k2) sb2 rb2 ::
       Resp.mk 200 tn3 (it3 :: l3) sa3 ra3 :: Resp.mk 200 tn4 (it4 :: l4) sa4 ra4 ::
       Resp.mk 200 tm5 (jt5 :: k5) sb5 rb5 :: r6 :: rest)).2.trace.all
      (fun q => q.method == Method.get) = true := by
  have hex := existsM_hit p tn1 tn3 tn4 tm2 tm5 it1 it3 it4 jt2 jt5
    l1 l3 l4 k2 k5 sa1 ra1 sa3 ra3 sa4 ra4 sb2 rb2 sb5 rb5 r6 rest
    h1 h3 h4 h2 h5 h6
  have hpres : EvalTo (presentM p cm)
      (Resp.mk 200 tn1 (it1 :: l1) sa1 ra1 :: Resp.mk 200 tm2 (jt2 :: k2) sb2 rb2 ::
       Resp.mk 200 tn3 (it3 :: l3) sa3 ra3 :: Resp.mk 200 tn4 (it4 :: l4) sa4 ra4 ::
       Resp.mk 200 tm5 (jt5 :: k5) sb5 rb5 :: r6 :: rest)
      (Except.ok false) rest
      [Method.get, Method.get, Method.get, Method.get, Method.get, Method.get] := by
    simp only [presentM]
    refine evalTo_cast (evalTo_bind hex (?_ : EvalTo _ _ _ _ [])) (by simp)
    rw [if_pos rfl]
    exact evalTo_pure _ _
  have hrun : EvalTo (execModuleM p cm)
      (Resp.mk 200 tn1 (it1 :: l1) sa1 ra1 :: Resp.mk 200 tm2 (jt2 :: k2) sb2 rb2 ::
       Resp.mk 200 tn3 (it3 :: l3) sa3 ra3 :: Resp.mk 200 tn4 (it4 :: l4) sa4 ra4 ::
       Resp.mk 200 tm5 (jt5 :: k5) sb5 rb5 :: r6 :: rest)
      (Except.ok false) rest
      [Method.get, Method.get, Method.get, Method.get, Method.get, Method.get] := by
    simp only [execModuleM, hstate]
    rw [if_pos (by decide)]
    exact hpres
  obtain ⟨reqs, heq, hm⟩ := hrun []
  refine ⟨by simp [runModule, heq], ?_⟩
  have : (runModule p cm
      (Resp.mk 200 tn1 (it1 :: l1) sa1 ra1 :: Resp.mk 200 tm2 (jt2 :: k2) sb2 rb2 ::
       Resp.mk 200 tn3 (it3 :: l3) sa3 ra3 :: Resp.mk 200 tn4 (it4 :: l4) sa4 ra4 ::
       Resp.mk 200 tm5 (jt5 :: k5) sb5 rb5 :: r6 :: rest)).2.trace = reqs := by
    simp [runModule, heq]
  rw [this]
  exact all_get_of_map reqs 6 (by rw [hm]; rfl)

/-- The parameters used to instantiate hypothesis bearing claim theorems:
a managed device identified by hostname. -/
def pWit : ModuleParams :=
  ⟨"K", "OFF", "bigip1", some true, none, none, none, none, "present"⟩

/-- Witness for C2: a concrete present run over an existing assignment. -/
theorem claim_c2_witness :
    (runModule pWit false
      [Resp.mk 200 1 [⟨"", "OID"⟩] "" "", Resp.mk 200 1 [⟨"", "MID"⟩] "" "",
       Resp.mk 200 1 [⟨"", "OID"⟩] "" "", Resp.mk 200 1 [⟨"", "OID"⟩] "" "",
       Resp.mk 200 1 [⟨"", "MID"⟩] "" "",
       Resp.mk 200 0 [] "LICENSED" ""]).1 = Except.ok false :=
  (claim_c2_present_idempotent pWit false 1 1 1 1 1 ⟨"", "OID"⟩ ⟨"", "OID"⟩
    ⟨"", "OID"⟩ ⟨"", "MID"⟩ ⟨"", "MID"⟩ [] [] [] [] [] "" "" "" "" "" "" "" "" "" ""
    (Resp.mk 200 0 [] "LICENSED" "") [] rfl (by decide) (by decide) (by decide)
    (by decide) (by decide) (by decide)).1

/-- Finishing step: an evaluation of exec_module with an all get request list
gives the result and the all get property of the final trace. -/
theorem runModule_finish (p : ModuleParams) (cm : Bool) (scr rest : List Resp)
    (res : Except RunErr Bool) (n : Nat)
    (h : EvalTo (execModuleM p cm) scr res rest (List.replicate n Method.get)) :
    (runModule p cm scr).1 = res ∧
    (runModule p cm scr).2.trace.all (fun q => q.method == Method.get) = true := by
  obtain ⟨reqs, heq, hm⟩ := h []
  refine ⟨by simp [runModule, heq], ?_⟩
  have ht : (runModule p cm scr).2.trace = reqs := by simp [runModule, heq]
  rw [ht]
  exact all_get_of_map reqs n hm

/-- When state is absent and the existence check reports False, exec_module
reports no change and issues nothing beyond the existence check requests. -/
theorem execModuleM_absent_false (p : ModuleParams) (cm : Bool)
    (scr rest : List Resp) (ms : List Method) (hstate : p.state = "absent")
    (hex : EvalTo (existsM p) scr (Except.ok false) rest ms) :
    EvalTo (execModuleM p cm) scr (Except.ok false) rest ms := by
  simp only [execModuleM, hstate]
  rw [if_neg (by decide), if_pos (by decide)]
  simp only [absentM]
  refine evalTo_cast (evalTo_bind hex (?_ : EvalTo _ _ _ _ [])) (by simp)
  rw [if_neg (by simp)]
  exact evalTo_pure _ _

/-- C3: with state absent and no existing assignment, whether because the
member filter query returns 200 with totalItems zero (first part) or because
the direct member GET returns 404 (second part), exec_module reports changed
equal to False and every issued request is a GET, so no DELETE is issued. -/
theorem claim_c3_absent_idempotent :
    (∀ (p : ModuleParams) (cm : Bool) (tn : Nat) (it : Item) (l k : List Item)
       (sa ra sb rb : String) (rest : List Resp),
       p.state = "absent" → tn ≠ 0 →
       (runModule p cm
         (Resp.mk 200 tn (it :: l) sa ra :: Resp.mk 200 0 k sb rb :: rest)).1 =
           Except.ok false ∧
       (runModule p cm
         (Resp.mk 200 tn (it :: l) sa ra :: Resp.mk 200 0 k sb rb :: rest)).2.trace.all
         (fun q => q.method == Method.get) = true) ∧
    (∀ (p : ModuleParams) (cm : Bool)
       (tn1 tn3 tn4 tm2 tm5 : Nat) (it1 it3 it4 jt2 jt5 : Item)
       (l1 l3 l4 k2 k5 : List Item)
       (sa1 ra1 sa3 ra3 sa4 ra4 sb2 rb2 sb5 rb5 : String)
       (r6 : Resp) (rest : List Resp),
       p.state = "absent" → tn1 ≠ 0 → tn3 ≠ 0 → tn4 ≠ 0 → tm2 ≠ 0 → tm5 ≠ 0 →
       r6.code = 404 →
       (runModule p cm
         (Resp.mk 200 tn1 (it1 :: l1) sa1 ra1 :: Resp.mk 200 tm2 (jt2 :: k2) sb2 rb2 ::
          Resp.mk 200 tn3 (it3 :: l3) sa3 ra3 :: Resp.mk 200 tn4 (it4 :: l4) sa4 ra4 ::
          Resp.mk 200 tm5 (jt5 :: k5) sb5 rb5 :: r6 :: rest)).1 = Except.ok false ∧
       (runModule p cm
         (Resp.mk 200 tn1 (it1 :: l1) sa1 ra1 :: Resp.mk 200 tm2 (jt2 :: k2) sb2 rb2 ::
          Resp.mk 200 tn3 (it3 :: l3) sa3 ra3 :: Resp.mk 200 tn4 (it4 :: l4) sa4 ra4 ::
          Resp.mk 200 tm5 (jt5 :: k5) sb5 rb5 :: r6 :: rest)).2.trace.all
         (fun q => q.method == Method.get) = true) := by
  constructor
  · intro p cm tn it l k sa ra sb rb rest hstate htn
    exact runModule_finish p cm _ _ _ 2
      (execModuleM_absent_false p cm _ _ _ hstate
        (existsM_miss p tn it l k sa ra sb rb rest htn))
  · intro p cm tn1 tn3 tn4 tm2 tm5 it1 it3 it4 jt2 jt5 l1 l3 l4 k2 k5
      sa1 ra1 sa3 ra3 sa4 ra4 sb2 rb2 sb5 rb5 r6 rest hstate h1 h3 h4 h2 h5 h404
    exact runModule_finish p cm _ _ _ 6
      (execModuleM_absent_false p cm _ _ _ hstate
        (existsM_notFound p tn1 tn3 tn4 tm2 tm5 it1 it3 it4 jt2 jt5
          l1 l3 l4 k2 k5 sa1 ra1 sa3 ra3 sa4 ra4 sb2 rb2 sb5 rb5 r6 rest
          h1 h3 h4 h2 h5 h404))

/-- The parameters for the absent witnesses. -/
def pWitAbsent : ModuleParams :=
  ⟨"K", "OFF", "bigip1", some true, none, none, none, none, "absent"⟩

/-- Witness for C3: concrete absent runs, one per part of the claim. -/
theorem claim_c3_witness :
    (runModule pWitAbsent false
      [Resp.mk 200 1 [⟨"", "OID"⟩] "" "", Resp.mk 200 0 [] "" ""]).1 =
        Except.ok false ∧
    (runModule pWitAbsent false
      [Resp.mk 200 1 [⟨"", "OID"⟩] "" "", Resp.mk 200 1 [⟨"", "MID"⟩] "" "",
       Resp.mk 200 1 [⟨"", "OID"⟩] "" "", Resp.mk 200 1 [⟨"", "OID"⟩] "" "",
       Resp.mk 200 1 [⟨"", "MID"⟩] "" "",
       Resp.mk 404 0 [] "" ""]).1 = Except.ok false :=
  ⟨(claim_c3_absent_idempotent.1 pWitAbsent false 1 ⟨"", "OID"⟩ [] [] "" "" "" "" []
      rfl (by decide)).1,
   (claim_c3_absent_idempotent.2 pWitAbsent false 1 1 1 1 1 ⟨"", "OID"⟩ ⟨"", "OID"⟩
      ⟨"", "OID"⟩ ⟨"", "MID"⟩ ⟨"", "MID"⟩ [] [] [] [] [] "" "" "" "" "" "" "" "" "" ""
      (Resp.mk 404 0 [] "" "") [] rfl (by decide) (by decide) (by decide)
      (by decide) (by decide) rfl).1⟩

/-- C6: the existence check answers False exactly on the no match shapes.
First part: the member filter query returns 200 with totalItems zero, so no
member id resolves, and exists returns False.  Second part: the member
lookups return an id but the direct member GET returns 404: False.  Third
part: the direct member GET returns a 2xx code: True. -/
theorem claim_c6_exists_characterisation :
    (∀ (p : ModuleParams) (tn : Nat) (it : Item) (l k : List Item)
       (sa ra sb rb : String) (rest : List Resp) (t : List Req), tn ≠ 0 →
       (existsM p ⟨Resp.mk 200 tn (it :: l) sa ra ::
                   Resp.mk 200 0 k sb rb :: rest, t⟩).1 = Except.ok false) ∧
    (∀ (p : ModuleParams) (tn1 tn3 tn4 tm2 tm5 : Nat)
       (it1 it3 it4 jt2 jt5 : Item) (l1 l3 l4 k2 k5 : List Item)
       (sa1 ra1 sa3 ra3 sa4 ra4 sb2 rb2 sb5 rb5 : String)
       (r6 : Resp) (rest : List Resp) (t : List Req),
       tn1 ≠ 0 → tn3 ≠ 0 → tn4 ≠ 0 → tm2 ≠ 0 → tm5 ≠ 0 → r6.code = 404 →
       (existsM p ⟨Resp.mk 200 tn1 (it1 :: l1) sa1 ra1 ::
                   Resp.mk 200 tm2 (jt2 :: k2) sb2 rb2 ::
                   Resp.mk 200 tn3 (it3 :: l3) sa3 ra3 ::
                   Resp.mk 200 tn4 (it4 :: l4) sa4 ra4 ::
                   Resp.mk 200 tm5 (jt5 :: k5) sb5 rb5 :: r6 :: rest, t⟩).1 =
         Except.ok false) ∧
    (∀ (p : ModuleParams) (tn1 tn3 tn4 tm2 tm5 : Nat)
       (it1 it3 it4 jt2 jt5 : Item) (l1 l3 l4 k2 k5 : List Item)
       (sa1 ra1 sa3 ra3 sa4 ra4 sb2 rb2 sb5 rb5 : String)
       (r6 : Resp) (rest : List Resp) (t : List Req),
       tn1 ≠ 0 → tn3 ≠ 0 → tn4 ≠ 0 → tm2 ≠ 0 → tm5 ≠ 0 → in2xx r6.code = true →
       (existsM p ⟨Resp.mk 200 tn1 (it1 :: l1) sa1 ra1 ::
                   Resp.mk 200 tm2 (jt2 :: k2) sb2 rb2 ::
                   Resp.mk 200 tn3 (it3 :: l3) sa3 ra3 ::
                   Resp.mk 200 tn4 (it4 :: l4) sa4 ra4 ::
                   Resp.mk 200 tm5 (jt5 :: k5) sb5 rb5 :: r6 :: rest, t⟩).1 =
         Except.ok true) := by
  refine ⟨?_, ?_, ?_⟩
  · intro p tn it l k sa ra sb rb rest t htn
    obtain ⟨reqs, heq, _⟩ := existsM_miss p tn it l k sa ra sb rb rest htn t
    simp [heq]
  · intro p tn1 tn3 tn4 tm2 tm5 it1 it3 it4 jt2 jt5 l1 l3 l4 k2 k5
      sa1 ra1 sa3 ra3 sa4 ra4 sb2 rb2 sb5 rb5 r6 rest t h1 h3 h4 h2 h5 h404
    obtain ⟨reqs, heq, _⟩ := existsM_notFound p tn1 tn3 tn4 tm2 tm5
      it1 it3 it4 jt2 jt5 l1 l3 l4 k2 k5
      sa1 ra1 sa3 ra3 sa4 ra4 sb2 rb2 sb5 rb5 r6 rest h1 h3 h4 h2 h5 h404 t
    simp [heq]
  · intro p tn1 tn3 tn4 tm2 tm5 it1 it3 it4 jt2 jt5 l1 l3 l4 k2 k5
      sa1 ra1 sa3 ra3 sa4 ra4 sb2 rb2 sb5 rb5 r6 rest t h1 h3 h4 h2 h5 h6
    obtain ⟨reqs, heq, _⟩ := existsM_hit p tn1 tn3 tn4 tm2 tm5
      it1 it3 it4 jt2 jt5 l1 l3 l4 k2 k5
      sa1 ra1 sa3 ra3 sa4 ra4 sb2 rb2 sb5 rb5 r6 rest h1 h3 h4 h2 h5 h6 t
    simp [heq]

/-- Witness for C6: concrete scripts for the three parts. -/
theorem claim_c6_witness :
    (existsM pWit ⟨[Resp.mk 200 1 [⟨"", "OID"⟩] "" "",
                    Resp.mk 200 0 [] "" ""], []⟩).1 = Except.ok false ∧
    (existsM pWit ⟨[Resp.mk 200 1 [⟨"", "OID"⟩] "" "",
                    Resp.mk 200 1 [⟨"", "MID"⟩] "" "",
                    Resp.mk 200 1 [⟨"", "OID"⟩] "" "",
                    Resp.mk 200 1 [⟨"", "OID"⟩] "" "",
                    Resp.mk 200 1 [⟨"", "MID"⟩] "" "",
                    Resp.mk 404 0 [] "" ""], []⟩).1 = Except.ok false ∧
    (existsM pWit ⟨[Resp.mk 200 1 [⟨"", "OID"⟩] "" "",
                    Resp.mk 200 1 [⟨"", "MID"⟩] "" "",
                    Resp.mk 200 1 [⟨"", "OID"⟩] "" "",
                    Resp.mk 200 1 [⟨"", "OID"⟩] "" "",
                    Resp.mk 200 1 [⟨"", "MID"⟩] "" "",
                    Resp.mk 200 0 [] "LICENSED" ""], []⟩).1 = Except.ok true :=
  ⟨claim_c6_exists_characterisation.1 pWit 1 ⟨"", "OID"⟩ [] [] "" "" "" "" [] []
     (by decide),
   claim_c6_exists_characterisation.2.1 pWit 1 1 1 1 1 ⟨"", "OID"⟩ ⟨"", "OID"⟩
     ⟨"", "OID"⟩ ⟨"", "MID"⟩ ⟨"", "MID"⟩ [] [] [] [] [] "" "" "" "" "" "" "" "" "" ""
     (Resp.mk 404 0 [] "" "") [] [] (by decide) (by decide) (by decide) (by decide)
     (by decide) rfl,
   claim_c6_exists_characterisation.2.2 pWit 1 1 1 1 1 ⟨"", "OID"⟩ ⟨"", "OID"⟩
     ⟨"", "OID"⟩ ⟨"", "MID"⟩ ⟨"", "MID"⟩ [] [] [] [] [] "" "" "" "" "" "" "" "" "" ""
     (Resp.mk 200 0 [] "LICENSED" "") [] [] (by decide) (by decide) (by decide)
     (by decide) (by decide) (by decide)⟩

/-- C9: whenever the offering filter query returns 200 with totalItems zero,
the run aborts with the descriptive F5ModuleError, in both the present and
the absent flow (the offering lookup is the first request either flow
issues). -/
theorem claim_c9_offering_not_found (p : ModuleParams) (cm : Bool)
    (l : List Item) (sa ra : String) (rest : List Resp)
    (hstate : p.state = "present" ∨ p.state = "absent") :
    (runModule p cm (Resp.mk 200 0 l sa ra :: rest)).1 =
      Except.error (RunErr.f5 "No offering with the specified name was found.") := by
  have hmem := memberIdM_err p l sa ra rest
  have hex : EvalTo (existsM p) (Resp.mk 200 0 l sa ra :: rest)
      (Except.error (RunErr.f5 "No offering with the specified name was found."))
      rest [Method.get] := by
    simp only [existsM]
    exact evalTo_bind_err hmem
  have hrun : EvalTo (execModuleM p cm) (Resp.mk 200 0 l sa ra :: rest)
      (Except.error (RunErr.f5 "No offering with the specified name was found."))
      rest [Method.get] := by
    rcases hstate with h | h
    · simp only [execModuleM, h]
      rw [if_pos (by decide)]
      simp only [presentM]
      exact evalTo_bind_err hex
    · simp only [execModuleM, h]
      rw [if_neg (by decide), if_pos (by decide)]
      simp only [absentM]
      exact evalTo_bind_err hex
  obtain ⟨reqs, heq, _⟩ := hrun []
  simp [runModule, heq]

/-- Witness for C9: a concrete run whose offering lookup reports zero items. -/
theorem claim_c9_witness :
    (runModule pWit false [Resp.mk 200 0 [] "" ""]).1 =
      Except.error (RunErr.f5 "No offering with the specified name was found.") :=
  claim_c9_offering_not_found pWit false [] "" "" [] (Or.inl rfl)

/-- C8: the managed and unmanaged field groups of UsableChanges are mutually
exclusive: with a truthy managed value the port, username, password and
address read as None (only the device reference may be set); with a falsy
managed value the device reference reads as None; the managed attribute
itself always reads as None. -/
theorem claim_c8_mutual_exclusion (v : ChangeVals) :
    (truthy v.managed = true →
      UsableChanges.device_port v = none ∧ UsableChanges.device_username v = none ∧
      UsableChanges.device_password v = none ∧ UsableChanges.device_address v = none) ∧
    (truthy v.managed = false → UsableChanges.device_reference v = none) ∧
    UsableChanges.managed v = none := by
  refine ⟨?_, ?_, rfl⟩
  · intro h
    simp [UsableChanges.device_port, UsableChanges.device_username,
      UsableChanges.device_password, UsableChanges.device_address, h]
  · intro h
    simp [UsableChanges.device_reference, h]

/-- Witness for C8: a fully populated change set, managed and unmanaged. -/
theorem claim_c8_witness :
    UsableChanges.device_port
      (ChangeVals.mk (some true) (some 443) (some "u") (some "pw") (some "a") (some "r")) =
      none ∧
    UsableChanges.device_reference
      (ChangeVals.mk (some false) (some 443) (some "u") (some "pw") (some "a") (some "r")) =
      none :=
  ⟨((claim_c8_mutual_exclusion
      (ChangeVals.mk (some true) (some 443) (some "u") (some "pw") (some "a") (some "r"))).1
      rfl).1,
   (claim_c8_mutual_exclusion
      (ChangeVals.mk (some false) (some 443) (some "u") (some "pw") (some "a") (some "r"))).2.1
      rfl⟩

/-- C10: device format classification is total: every device string falls in
exactly one of the address, id and name classes, and consequently both
filter computations always succeed, so the unknown device format branches of
device_reference and member_id are unreachable. -/
theorem claim_c10_classification_total (p : ModuleParams) :
    ((device_is_address p = true ∧ device_is_id p = false ∧ device_is_name p = false) ∨
     (device_is_address p = false ∧ device_is_id p = true ∧ device_is_name p = false) ∨
     (device_is_address p = false ∧ device_is_id p = false ∧ device_is_name p = true)) ∧
    (∀ scr : List Resp, ∃ f : String, EvalTo (deviceFilterM p) scr (Except.ok f) scr []) ∧
    (∀ scr : List Resp, ∃ f : String, EvalTo (memberFilterM p) scr (Except.ok f) scr []) :=
  ⟨device_class_cases p, fun scr => deviceFilterM_total p scr,
   fun scr => memberFilterM_total p scr⟩

/-! The polling loop of wait_for_device_to_be_licensed. -/

/-- Once count has reached three, the loop exits at the loop head without
issuing further requests. -/
theorem waitLoop_done (count : Nat) (rs : List Resp) (h : 3 ≤ count) :
    waitLoop count rs = (Except.ok (), rs, 0) := by
  cases rs <;> simp [waitLoop, h]

/-- Three consecutive LICENSED 2xx responses let the loop exit normally,
whatever the count at their start. -/
theorem waitLoop_three_licensed (count : Nat) (l1 l2 l3 : Resp) (rest : List Resp)
    (h1 : in2xx l1.code = true) (s1 : l1.status = "LICENSED")
    (h2 : in2xx l2.code = true) (s2 : l2.status = "LICENSED")
    (h3 : in2xx l3.code = true) (s3 : l3.status = "LICENSED") :
    (waitLoop count (l1 :: l2 :: l3 :: rest)).1 = Except.ok () := by
  by_cases hc : 3 ≤ count
  · simp [waitLoop_done _ _ hc]
  · have hlt : count < 3 := by omega
    interval_cases count <;>
      simp [waitLoop, waitLoop_done, h1, s1, h2, s2, h3, s3]

/-- Any all 2xx prefix preserves the eventual success: processing it either
exits the loop early or reaches the LICENSED run. -/
theorem waitLoop_reaches (l1 l2 l3 : Resp) (rest : List Resp)
    (h1 : in2xx l1.code = true) (s1 : l1.status = "LICENSED")
    (h2 : in2xx l2.code = true) (s2 : l2.status = "LICENSED")
    (h3 : in2xx l3.code = true) (s3 : l3.status = "LICENSED") :
    ∀ (pre : List Resp) (count : Nat), (∀ r ∈ pre, in2xx r.code = true) →
    (waitLoop count (pre ++ l1 :: l2 :: l3 :: rest)).1 = Except.ok () := by
  intro pre
  induction pre with
  | nil =>
    intro count _
    simpa using waitLoop_three_licensed count l1 l2 l3 rest h1 s1 h2 s2 h3 s3
  | cons r pre ih =>
    intro count hall
    have hr : in2xx r.code = true := hall r (by simp)
    have hpre : ∀ x ∈ pre, in2xx x.code = true := fun x hx => hall x (by simp [hx])
    rw [List.cons_append]
    by_cases hc : 3 ≤ count
    · simp [waitLoop_done _ _ hc]
    · by_cases hs : (r.status == "LICENSED") = true
      · simp only [waitLoop]
        rw [if_neg hc, if_neg (by simp [hr]), if_pos hs]
        simpa using ih (count + 1) hpre
      · simp only [waitLoop]
        rw [if_neg hc, if_neg (by simp [hr]), if_neg hs]
        simpa using ih 0 hpre

/-- A 2xx stream that never reads LICENSED resets count forever: the loop
consumes the entire stream and is still polling (it issues one request per
stream element plus the request the script can no longer answer). -/
theorem waitLoop_never (rs : List Resp) :
    (∀ r ∈ rs, in2xx r.code = true ∧ r.status ≠ "LICENSED") →
    waitLoop 0 rs = (Except.error RunErr.oracle, [], rs.length + 1) := by
  induction rs with
  | nil => intro _; simp [waitLoop]
  | cons r rs ih =>
    intro hall
    have hr := hall r (by simp)
    have hrs : ∀ x ∈ rs, in2xx x.code = true ∧ x.status ≠ "LICENSED" :=
      fun x hx => hall x (by simp [hx])
    simp only [waitLoop]
    rw [if_neg (by omega), if_neg (by simp [hr.1]), if_neg (by simp [hr.2])]
    simp [ih hrs]

/-- Counterexample for C1: four consecutive 2xx polling responses whose
status is INSTALLING do not let the loop return; after consuming all four
responses (already more than the claimed fixed three iteration poll) the
loop issues a fifth request, so it has not terminated within the claimed
bound. -/
theorem claim_c1_counterexample :
    (waitLoop 0 (List.replicate 4 (Resp.mk 200 0 [] "INSTALLING" ""))).1 =
      Except.error RunErr.oracle ∧
    (waitLoop 0 (List.replicate 4 (Resp.mk 200 0 [] "INSTALLING" ""))).2.2 = 5 := by
  constructor <;> rfl

/-- C1 (amended): the polling loop has no fixed iteration bound.  It returns
without raising exactly upon observing three consecutive 2xx LICENSED
responses, after any all 2xx prefix of whatever length; and on a 2xx
response stream that never reads LICENSED it keeps polling unboundedly,
consuming every provided response and requesting again. -/
theorem claim_c1_wait_loop (l1 l2 l3 : Resp) (pre rest rs : List Resp)
    (hpre : ∀ r ∈ pre, in2xx r.code = true)
    (h1 : in2xx l1.code = true) (s1 : l1.status = "LICENSED")
    (h2 : in2xx l2.code = true) (s2 : l2.status = "LICENSED")
    (h3 : in2xx l3.code = true) (s3 : l3.status = "LICENSED")
    (hrs : ∀ r ∈ rs, in2xx r.code = true ∧ r.status ≠ "LICENSED") :
    (waitLoop 0 (pre ++ l1 :: l2 :: l3 :: rest)).1 = Except.ok () ∧
    (waitLoop 0 rs).1 = Except.error RunErr.oracle ∧
    (waitLoop 0 rs).2.2 = rs.length + 1 := by
  refine ⟨waitLoop_reaches l1 l2 l3 rest h1 s1 h2 s2 h3 s3 pre 0 hpre, ?_, ?_⟩
  · rw [waitLoop_never rs hrs]
  · rw [waitLoop_never rs hrs]

/-- Witness for the amended C1: one INSTALLING response before three
LICENSED ones lets the loop exit; a stream of two INSTALLING responses
leaves it polling with three requests issued. -/
theorem claim_c1_wait_loop_witness :
    (waitLoop 0 (Resp.mk 200 0 [] "INSTALLING" "" :: Resp.mk 200 0 [] "LICENSED" "" ::
      Resp.mk 200 0 [] "LICENSED" "" :: Resp.mk 200 0 [] "LICENSED" "" :: [])).1 =
      Except.ok () ∧
    (waitLoop 0 [Resp.mk 201 0 [] "INSTALLING" "", Resp.mk 202 0 [] "INSTALLING" ""]).1 =
      Except.error RunErr.oracle ∧
    (waitLoop 0 [Resp.mk 201 0 [] "INSTALLING" "", Resp.mk 202 0 [] "INSTALLING" ""]).2.2 = 3 :=
  claim_c1_wait_loop (Resp.mk 200 0 [] "LICENSED" "") (Resp.mk 200 0 [] "LICENSED" "")
    (Resp.mk 200 0 [] "LICENSED" "") [Resp.mk 200 0 [] "INSTALLING" ""] []
    [Resp.mk 201 0 [] "INSTALLING" "", Resp.mk 202 0 [] "INSTALLING" ""]
    (by intro r hr; simp at hr; simp [hr, in2xx]) rfl rfl rfl rfl rfl rfl
    (by intro r hr; simp at hr; rcases hr with h | h <;> simp [h, in2xx])

/-! Check mode: only GET requests can ever be issued. -/

/-- GetsOnly m: whatever the state, m only appends GET requests to the
trace. -/
def GetsOnly {α : Type} (m : M α) : Prop :=
  ∀ s : St, ∃ gs : List Req,
    (m s).2.trace = s.trace ++ gs ∧ ∀ q ∈ gs, q.method = Method.get

theorem getsOnly_pure {α : Type} (a : α) : GetsOnly (M.pure a) := by
  intro s
  exact ⟨[], by simp [M.pure], by simp⟩

theorem getsOnly_throwF5 {α : Type} (msg : String) : GetsOnly (throwF5 msg : M α) := by
  intro s
  exact ⟨[], by simp [throwF5], by simp⟩

theorem getsOnly_throwPy {α : Type} : GetsOnly (throwPy : M α) := by
  intro s
  exact ⟨[], by simp [throwPy], by simp⟩

theorem getsOnly_httpGet (uri : String) : GetsOnly (httpGet uri) := by
  intro s
  cases hs : s.script with
  | nil => exact ⟨[⟨Method.get, uri⟩], by simp [httpGet, call, hs], by simp⟩
  | cons r rest => exact ⟨[⟨Method.get, uri⟩], by simp [httpGet, call, hs], by simp⟩

theorem getsOnly_headPy (l : List Item) : GetsOnly (headPy l) := by
  cases l
  · exact getsOnly_throwPy
  · exact getsOnly_pure _

theorem getsOnly_bind {α β : Type} {x : M α} {f : α → M β}
    (hx : GetsOnly x) (hf : ∀ a, GetsOnly (f a)) : GetsOnly (M.bind x f) := by
  intro s
  obtain ⟨gs, hg, hall⟩ := hx s
  cases hx2 : x s with
  | mk r s1 =>
    have hs1 : s1.trace = s.trace ++ gs := by rw [hx2] at hg; exact hg
    cases r with
    | ok a =>
      obtain ⟨gs2, hg2, hall2⟩ := hf a s1
      refine ⟨gs ++ gs2, ?_, ?_⟩
      · show (M.bind x f s).2.trace = _
        simp only [M.bind, hx2]
        rw [hg2, hs1, List.append_assoc]
      · intro q hq
        rcases List.mem_append.mp hq with h | h
        exacts [hall q h, hall2 q h]
    | error e =>
      refine ⟨gs, ?_, hall⟩
      show (M.bind x f s).2.trace = _
      simp only [M.bind, hx2]
      exact hs1

theorem getsOnly_ite {α : Type} (c : Prop) [Decidable c] {m1 m2 : M α}
    (h1 : GetsOnly m1) (h2 : GetsOnly m2) : GetsOnly (if c then m1 else m2) := by
  by_cases hc : c
  · rw [if_pos hc]; exact h1
  · rw [if_neg hc]; exact h2

theorem getsOnly_deviceFilterM (p : ModuleParams) : GetsOnly (deviceFilterM p) := by
  simp only [deviceFilterM]
  exact getsOnly_ite _ (getsOnly_pure _) (getsOnly_ite _ (getsOnly_pure _)
    (getsOnly_ite _ (getsOnly_pure _) (getsOnly_throwF5 _)))

theorem getsOnly_memberFilterM (p : ModuleParams) : GetsOnly (memberFilterM p) := by
  simp only [memberFilterM]
  exact getsOnly_ite _ (getsOnly_pure _) (getsOnly_ite _ (getsOnly_pure _)
    (getsOnly_ite _ (getsOnly_pure _) (getsOnly_throwF5 _)))

theorem getsOnly_deviceReferenceM (p : ModuleParams) : GetsOnly (deviceReferenceM p) := by
  simp only [deviceReferenceM]
  refine getsOnly_ite _ (getsOnly_pure _) ?_
  refine getsOnly_bind (getsOnly_deviceFilterM p) fun filter => ?_
  refine getsOnly_bind (getsOnly_httpGet _) fun resp => ?_
  refine getsOnly_ite _ (getsOnly_throwF5 _) (getsOnly_ite _ (getsOnly_throwF5 _) ?_)
  exact getsOnly_bind (getsOnly_headPy _) fun item => getsOnly_pure _

theorem getsOnly_offeringIdM (p : ModuleParams) : GetsOnly (offeringIdM p) := by
  simp only [offeringIdM]
  refine getsOnly_bind (getsOnly_httpGet _) fun resp => ?_
  refine getsOnly_ite _ (getsOnly_throwF5 _) (getsOnly_ite _ (getsOnly_throwF5 _) ?_)
  exact getsOnly_bind (getsOnly_headPy _) fun item => getsOnly_pure _

theorem getsOnly_memberIdM (p : ModuleParams) : GetsOnly (memberIdM p) := by
  simp only [memberIdM]
  refine getsOnly_bind (getsOnly_memberFilterM p) fun filter => ?_
  refine getsOnly_bind (getsOnly_offeringIdM p) fun oid => ?_
  refine getsOnly_bind (getsOnly_httpGet _) fun resp => ?_
  refine getsOnly_ite _ (getsOnly_throwF5 _) (getsOnly_ite _ (getsOnly_pure _) ?_)
  exact getsOnly_bind (getsOnly_headPy _) fun item => getsOnly_pure _

theorem getsOnly_existsM (p : ModuleParams) : GetsOnly (existsM p) := by
  simp only [existsM]
  refine getsOnly_bind (getsOnly_memberIdM p) fun mid => ?_
  cases mid with
  | none => exact getsOnly_pure _
  | some m =>
    refine getsOnly_bind (getsOnly_offeringIdM p) fun oid => ?_
    refine getsOnly_bind (getsOnly_memberIdM p) fun mid2 => ?_
    refine getsOnly_bind (getsOnly_httpGet _) fun resp => ?_
    exact getsOnly_ite _ (getsOnly_pure _) (getsOnly_ite _ (getsOnly_throwF5 _)
      (getsOnly_pure _))

theorem getsOnly_setChangedOptionsM (p : ModuleParams) :
    GetsOnly (setChangedOptionsM p) := by
  simp only [setChangedOptionsM]
  exact getsOnly_bind (getsOnly_deviceReferenceM p) fun _ => getsOnly_pure _

theorem getsOnly_createM_check (p : ModuleParams) : GetsOnly (createM p true) := by
  simp only [createM]
  refine getsOnly_bind (getsOnly_setChangedOptionsM p) fun _ => ?_
  refine getsOnly_bind (getsOnly_ite _
    (getsOnly_ite _ (getsOnly_throwF5 _)
      (getsOnly_ite _ (getsOnly_throwF5 _) (getsOnly_pure _)))
    (getsOnly_pure _)) fun _ => ?_
  rw [if_pos trivial]
  exact getsOnly_pure _

theorem getsOnly_removeM_check (p : ModuleParams) : GetsOnly (removeM p true) := by
  simp only [removeM]
  refine getsOnly_bind (getsOnly_setChangedOptionsM p) fun _ => ?_
  rw [if_pos trivial]
  exact getsOnly_pure _

theorem getsOnly_execModuleM_check (p : ModuleParams) :
    GetsOnly (execModuleM p true) := by
  simp only [execModuleM]
  refine getsOnly_ite _ ?_ (getsOnly_ite _ ?_ (getsOnly_pure _))
  · simp only [presentM]
    refine getsOnly_bind (getsOnly_existsM p) fun ex => ?_
    exact getsOnly_ite _ (getsOnly_pure _) (getsOnly_createM_check p)
  · simp only [absentM]
    refine getsOnly_bind (getsOnly_existsM p) fun ex => ?_
    exact getsOnly_ite _ (getsOnly_removeM_check p) (getsOnly_pure _)

/-- C7: in check mode no mutating request is ever issued: whatever the
parameters and whatever the scripted responses, every request in the trace
of a check mode run is a GET, because create and remove return before
calling create_on_device or remove_from_device. -/
theorem claim_c7_check_mode_no_mutation (p : ModuleParams) (script : List Resp) :
    (runModule p true script).2.trace.all (fun q => q.method == Method.get) = true := by
  obtain ⟨gs, hg, hall⟩ := getsOnly_execModuleM_check p ⟨script, []⟩
  have ht : (runModule p true script).2.trace = gs := by
    simpa [runModule] using hg
  rw [ht, List.all_eq_true]
  intro q hq
  simp [hall q hq]

/-! C5: unmanaged creation without credentials. -/

/-- The parameters of the C5 runs: an unmanaged device without
credentials. -/
def pNoCred : ModuleParams :=
  ⟨"K", "OFF", "bigip1", some false, none, none, none, none, "present"⟩

/-- Counterexample for C5: the credential validation error is raised by
create only after the existence check has already issued its two lookup GET
requests, so the failure does not precede every network call. -/
theorem claim_c5_counterexample :
    (runModule pNoCred false
      [Resp.mk 200 1 [⟨"", "OID"⟩] "" "", Resp.mk 200 0 [] "" ""]).1 =
      Except.error (RunErr.f5
        "You must specify a \x27device_username\x27 when working with unmanaged devices.") ∧
    ((runModule pNoCred false
      [Resp.mk 200 1 [⟨"", "OID"⟩] "" "", Resp.mk 200 0 [] "" ""]).2.trace.map
        Req.method) = [Method.get, Method.get] := by
  constructor <;> rfl

/-- C5 (amended): with state present, a falsy managed flag and a missing
device_username (first part) or a missing device_password (second part),
the run aborts with the corresponding F5ModuleError before any mutating
call: every request issued up to the failure is one of the existence check
lookup GETs (which do precede the failure), and no POST or DELETE is ever
issued. -/
theorem claim_c5_no_credentials :
    (∀ (p : ModuleParams) (cm : Bool) (tn : Nat) (it : Item) (l k : List Item)
       (sa ra sb rb : String) (rest : List Resp),
       p.state = "present" → truthy p.managed = false →
       p.device_username = none → tn ≠ 0 →
       (runModule p cm
         (Resp.mk 200 tn (it :: l) sa ra :: Resp.mk 200 0 k sb rb :: rest)).1 =
         Except.error (RunErr.f5
           "You must specify a \x27device_username\x27 when working with unmanaged devices.") ∧
       (runModule p cm
         (Resp.mk 200 tn (it :: l) sa ra :: Resp.mk 200 0 k sb rb :: rest)).2.trace.all
         (fun q => q.method == Method.get) = true) ∧
    (∀ (p : ModuleParams) (cm : Bool) (u : String) (tn : Nat) (it : Item)
       (l k : List Item) (sa ra sb rb : String) (rest : List Resp),
       p.state = "present" → truthy p.managed = false →
       p.device_username = some u → p.device_password = none → tn ≠ 0 →
       (runModule p cm
         (Resp.mk 200 tn (it :: l) sa ra :: Resp.mk 200 0 k sb rb :: rest)).1 =
         Except.error (RunErr.f5
           "You must specify a \x27device_password\x27 when working with unmanaged devices.") ∧
       (runModule p cm
         (Resp.mk 200 tn (it :: l) sa ra :: Resp.mk 200 0 k sb rb :: rest)).2.trace.all
         (fun q => q.method == Method.get) = true) := by
  constructor
  · intro p cm tn it l k sa ra sb rb rest hstate hm hu htn
    have hcreate : EvalTo (createM p cm) rest
        (Except.error (RunErr.f5
          "You must specify a \x27device_username\x27 when working with unmanaged devices."))
        rest [] := by
      simp only [createM]
      refine evalTo_cast (evalTo_bind (setChangedOptionsM_unmanaged p rest hm)
        (?_ : EvalTo _ _ _ _ [])) (by simp)
      refine evalTo_bind_err ?_
      rw [if_pos (by simp [hm]), if_pos (by simp [hu])]
      exact evalTo_throwF5 _ _
    have hpres : EvalTo (execModuleM p cm)
        (Resp.mk 200 tn (it :: l) sa ra :: Resp.mk 200 0 k sb rb :: rest)
        (Except.error (RunErr.f5
          "You must specify a \x27device_username\x27 when working with unmanaged devices."))
        rest [Method.get, Method.get] := by
      simp only [execModuleM, hstate]
      rw [if_pos (by decide)]
      simp only [presentM]
      refine evalTo_cast (evalTo_bind (existsM_miss p tn it l k sa ra sb rb rest htn)
        (?_ : EvalTo _ _ _ _ [])) (by simp)
      rw [if_neg (by simp)]
      exact hcreate
    exact runModule_finish p cm _ _ _ 2 hpres
  · intro p cm u tn it l k sa ra sb rb rest hstate hm hu hw htn
    have hcreate : EvalTo (createM p cm) rest
        (Except.error (RunErr.f5
          "You must specify a \x27device_password\x27 when working with unmanaged devices."))
        rest [] := by
      simp only [createM]
      refine evalTo_cast (evalTo_bind (setChangedOptionsM_unmanaged p rest hm)
        (?_ : EvalTo _ _ _ _ [])) (by simp)
      refine evalTo_bind_err ?_
      rw [if_pos (by simp [hm]), if_neg (by simp [hu]), if_pos (by simp [hw])]
      exact evalTo_throwF5 _ _
    have hpres : EvalTo (execModuleM p cm)
        (Resp.mk 200 tn (it :: l) sa ra :: Resp.mk 200 0 k sb rb :: rest)
        (Except.error (RunErr.f5
          "You must specify a \x27device_password\x27 when working with unmanaged devices."))
        rest [Method.get, Method.get] := by
      simp only [execModuleM, hstate]
      rw [if_pos (by decide)]
      simp only [presentM]
      refine evalTo_cast (evalTo_bind (existsM_miss p tn it l k sa ra sb rb rest htn)
        (?_ : EvalTo _ _ _ _ [])) (by simp)
      rw [if_neg (by simp)]
      exact hcreate
    exact runModule_finish p cm _ _ _ 2 hpres

/-- Witness for the amended C5. -/
theorem claim_c5_witness :
    (runModule pNoCred false
      [Resp.mk 200 1 [⟨"", "OID"⟩] "" "", Resp.mk 200 0 [] "" ""]).2.trace.all
      (fun q => q.method == Method.get) = true :=
  (claim_c5_no_credentials.1 pNoCred false 1 ⟨"", "OID"⟩ [] [] "" "" "" "" []
    rfl rfl rfl (by decide)).2

/-! C4: non 2xx handling of the individual request kinds. -/

/-- The response script of the C4 counterexample run: a full absent flow in
which the DELETE response (position 10) carries status code 500. -/
def scriptC4 : List Resp :=
  [Resp.mk 200 1 [⟨"", "OID"⟩] "" "", Resp.mk 200 1 [⟨"", "MID"⟩] "" "",
   Resp.mk 200 1 [⟨"", "OID"⟩] "" "", Resp.mk 200 1 [⟨"", "OID"⟩] "" "",
   Resp.mk 200 1 [⟨"", "MID"⟩] "" "", Resp.mk 200 0 [] "" "",
   Resp.mk 200 1 [⟨"UUID", ""⟩] "" "", Resp.mk 200 1 [⟨"", "OID"⟩] "" "",
   Resp.mk 200 1 [⟨"", "OID"⟩] "" "", Resp.mk 200 1 [⟨"", "MID"⟩] "" "",
   Resp.mk 500 0 [] "" "server error", Resp.mk 200 1 [⟨"", "OID"⟩] "" "",
   Resp.mk 200 0 [] "" ""]

/-- Counterexample for C4: in this absent run the DELETE issued by
remove_from_device (the eleventh request of the trace) receives a 500
response, yet no error is raised: the run completes with changed True,
because remove_from_device never inspects the DELETE response. -/
theorem claim_c4_counterexample :
    (runModule pWitAbsent false scriptC4).1 = Except.ok true ∧
    ((runModule pWitAbsent false scriptC4).2.trace.map Req.method).get? 10 =
      some Method.delete ∧
    (scriptC4.get? 10).map Resp.code = some 500 := by
  refine ⟨rfl, rfl, rfl⟩

/-- remove_from_device for a managed device: three lookup GETs, then the
DELETE, whose response (r4, arbitrary) is never inspected. -/
theorem removeFromDeviceM_managed (p : ModuleParams) (tn1 tn2 tm : Nat)
    (it1 it2 jt : Item) (l1 l2 k : List Item)
    (sa1 ra1 sa2 ra2 sb rb : String) (r4 : Resp) (rest : List Resp)
    (hm : truthy p.managed = true) (h1 : tn1 ≠ 0) (h2 : tn2 ≠ 0) (h3 : tm ≠ 0) :
    EvalTo (removeFromDeviceM p)
      (Resp.mk 200 tn1 (it1 :: l1) sa1 ra1 :: Resp.mk 200 tn2 (it2 :: l2) sa2 ra2 ::
       Resp.mk 200 tm (jt :: k) sb rb :: r4 :: rest)
      (Except.ok ()) rest
      [Method.get, Method.get, Method.get, Method.delete] := by
  simp only [removeFromDeviceM, httpDelete]
  refine evalTo_cast (evalTo_bind (offeringIdM_hit p tn1 it1 l1 sa1 ra1 _ h1)
    (?_ : EvalTo _ _ _ _ [Method.get, Method.get, Method.delete])) (by simp)
  refine evalTo_cast (evalTo_bind
    (memberIdM_hit p tn2 tm it2 jt l2 k sa2 ra2 sb rb _ h2 h3)
    (?_ : EvalTo _ _ _ _ [Method.delete])) (by simp)
  refine evalTo_cast (evalTo_bind
    (?_ : EvalTo _ (r4 :: rest) (Except.ok ()) (r4 :: rest) [])
    (?_ : EvalTo _ (r4 :: rest) (Except.ok ()) rest [Method.delete])) (by simp)
  · rw [if_neg (by simp [hm])]
    exact evalTo_pure _ _
  · refine evalTo_cast (evalTo_bind (evalTo_call _ _ _ _)
      (?_ : EvalTo _ _ _ _ [])) (by simp)
    exact evalTo_pure _ _

/-- ModuleManager.exists when the direct member GET answers a non 2xx code
other than 404: the raw response body is raised. -/
theorem existsM_memberGetErr (p : ModuleParams)
    (tn1 tn3 tn4 tm2 tm5 : Nat) (it1 it3 it4 jt2 jt5 : Item)
    (l1 l3 l4 k2 k5 : List Item)
    (sa1 ra1 sa3 ra3 sa4 ra4 sb2 rb2 sb5 rb5 : String)
    (r6 : Resp) (rest : List Resp)
    (h1 : tn1 ≠ 0) (h3 : tn3 ≠ 0) (h4 : tn4 ≠ 0) (h2 : tm2 ≠ 0) (h5 : tm5 ≠ 0)
    (h6a : in2xx r6.code = false) (h6b : r6.code ≠ 404) :
    EvalTo (existsM p)
      (Resp.mk 200 tn1 (it1 :: l1) sa1 ra1 :: Resp.mk 200 tm2 (jt2 :: k2) sb2 rb2 ::
       Resp.mk 200 tn3 (it3 :: l3) sa3 ra3 :: Resp.mk 200 tn4 (it4 :: l4) sa4 ra4 ::
       Resp.mk 200 tm5 (jt5 :: k5) sb5 rb5 :: r6 :: rest)
      (Except.error (RunErr.f5 r6.raw)) rest
      [Method.get, Method.get, Method.get, Method.get, Method.get, Method.get] := by
  simp only [existsM, httpGet]
  refine evalTo_cast (evalTo_bind
    (memberIdM_hit p tn1 tm2 it1 jt2 l1 k2 sa1 ra1 sb2 rb2 _ h1 h2)
    (?_ : EvalTo _ _ _ _ [Method.get, Method.get, Method.get, Method.get])) (by simp)
  refine evalTo_cast (evalTo_bind (offeringIdM_hit p tn3 it3 l3 sa3 ra3 _ h3)
    (?_ : EvalTo _ _ _ _ [Method.get, Method.get, Method.get])) (by simp)
  refine evalTo_cast (evalTo_bind
    (memberIdM_hit p tn4 tm5 it4 jt5 l4 k5 sa4 ra4 sb5 rb5 _ h4 h5)
    (?_ : EvalTo _ _ _ _ [Method.get])) (by simp)
  refine evalTo_cast (evalTo_bind (evalTo_call _ _ _ _)
    (?_ : EvalTo _ _ _ _ [])) (by simp)
  rw [if_neg (by simp [h6b]), if_pos (by simp [h6a])]
  exact evalTo_throwF5 _ _

/-- C4 (amended): every checked request raises an F5ModuleError carrying the
raw response body on a non 2xx response: the offering lookup GET (part 1),
the member filter query GET (part 2), the device lookup GET of
device_reference (part 3), the direct member GET of exists for any non 2xx
code other than 404 (part 4), and the POST of create_on_device (part 5).
The DELETE of remove_from_device is the exception: its response is never
inspected, so whatever its status code remove_from_device completes without
raising (part 6), and a failed deletion surfaces only through the
subsequent existence re-check of remove, which raises the failed to delete
error (part 7). -/
theorem claim_c4_non2xx :
    (∀ (p : ModuleParams) (r : Resp) (rest : List Resp) (t : List Req),
       in2xx r.code = false →
       (offeringIdM p ⟨r :: rest, t⟩).1 = Except.error (RunErr.f5 r.raw)) ∧
    (∀ (p : ModuleParams) (tn : Nat) (it : Item) (l : List Item)
       (sa ra : String) (r : Resp) (rest : List Resp) (t : List Req),
       tn ≠ 0 → in2xx r.code = false →
       (memberIdM p ⟨Resp.mk 200 tn (it :: l) sa ra :: r :: rest, t⟩).1 =
         Except.error (RunErr.f5 r.raw)) ∧
    (∀ (p : ModuleParams) (r : Resp) (rest : List Resp) (t : List Req),
       truthy p.managed = true → in2xx r.code = false →
       (deviceReferenceM p ⟨r :: rest, t⟩).1 = Except.error (RunErr.f5 r.raw)) ∧
    (∀ (p : ModuleParams) (tn1 tn3 tn4 tm2 tm5 : Nat)
       (it1 it3 it4 jt2 jt5 : Item) (l1 l3 l4 k2 k5 : List Item)
       (sa1 ra1 sa3 ra3 sa4 ra4 sb2 rb2 sb5 rb5 : String)
       (r6 : Resp) (rest : List Resp) (t : List Req),
       tn1 ≠ 0 → tn3 ≠ 0 → tn4 ≠ 0 → tm2 ≠ 0 → tm5 ≠ 0 →
       in2xx r6.code = false → r6.code ≠ 404 →
       (existsM p ⟨Resp.mk 200 tn1 (it1 :: l1) sa1 ra1 ::
                   Resp.mk 200 tm2 (jt2 :: k2) sb2 rb2 ::
                   Resp.mk 200 tn3 (it3 :: l3) sa3 ra3 ::
                   Resp.mk 200 tn4 (it4 :: l4) sa4 ra4 ::
                   Resp.mk 200 tm5 (jt5 :: k5) sb5 rb5 :: r6 :: rest, t⟩).1 =
         Except.error (RunErr.f5 r6.raw)) ∧
    (∀ (p : ModuleParams) (tn : Nat) (it : Item) (l : List Item)
       (sa ra : String) (r : Resp) (rest : List Resp) (t : List Req),
       tn ≠ 0 → in2xx r.code = false →
       (createOnDeviceM p ⟨Resp.mk 200 tn (it :: l) sa ra :: r :: rest, t⟩).1 =
         Except.error (RunErr.f5 r.raw)) ∧
    (∀ (p : ModuleParams) (tn1 tn2 tm : Nat) (it1 it2 jt : Item)
       (l1 l2 k : List Item) (sa1 ra1 sa2 ra2 sb rb : String)
       (r4 : Resp) (rest : List Resp),
       truthy p.managed = true → tn1 ≠ 0 → tn2 ≠ 0 → tm ≠ 0 →
       EvalTo (removeFromDeviceM p)
         (Resp.mk 200 tn1 (it1 :: l1) sa1 ra1 :: Resp.mk 200 tn2 (it2 :: l2) sa2 ra2 ::
          Resp.mk 200 tm (jt :: k) sb rb :: r4 :: rest)
         (Except.ok ()) rest
         [Method.get, Method.get, Method.get, Method.delete]) ∧
    (∀ (p : ModuleParams) (d0 o1 o2 m1 o3 o4 o5 m2 m3 : Item)
       (r4 g6 : Resp) (rest : List Resp) (t : List Req),
       truthy p.managed = true → in2xx g6.code = true →
       (removeM p false
         ⟨Resp.mk 200 1 [d0] "" "" :: Resp.mk 200 1 [o1] "" "" ::
          Resp.mk 200 1 [o2] "" "" :: Resp.mk 200 1 [m1] "" "" :: r4 ::
          Resp.mk 200 1 [o3] "" "" :: Resp.mk 200 1 [m2] "" "" ::
          Resp.mk 200 1 [o4] "" "" :: Resp.mk 200 1 [o5] "" "" ::
          Resp.mk 200 1 [m3] "" "" :: g6 :: rest, t⟩).1 =
         Except.error (RunErr.f5 "Failed to delete the resource.")) := by
  refine ⟨?_, ?_, ?_, ?_, ?_, ?_, ?_⟩
  · intro p r rest t hc
    have h : EvalTo (offeringIdM p) (r :: rest)
        (Except.error (RunErr.f5 r.raw)) rest [Method.get] := by
      simp only [offeringIdM, httpGet]
      refine evalTo_cast (evalTo_bind (evalTo_call _ _ _ _)
        (?_ : EvalTo _ _ _ _ [])) (by simp)
      rw [if_pos (by simp [hc])]
      exact evalTo_throwF5 _ _
    obtain ⟨reqs, heq, _⟩ := h t
    simp [heq]
  · intro p tn it l sa ra r rest t htn hc
    have h : EvalTo (memberIdM p) (Resp.mk 200 tn (it :: l) sa ra :: r :: rest)
        (Except.error (RunErr.f5 r.raw)) rest [Method.get, Method.get] := by
      obtain ⟨f, hf⟩ := memberFilterM_total p
        (Resp.mk 200 tn (it :: l) sa ra :: r :: rest)
      simp only [memberIdM, httpGet]
      refine evalTo_cast (evalTo_bind hf
        (?_ : EvalTo _ _ _ _ [Method.get, Method.get])) (by simp)
      refine evalTo_cast (evalTo_bind (offeringIdM_hit p tn it l sa ra _ htn)
        (?_ : EvalTo _ _ _ _ [Method.get])) (by simp)
      refine evalTo_cast (evalTo_bind (evalTo_call _ _ _ _)
        (?_ : EvalTo _ _ _ _ [])) (by simp)
      rw [if_pos (by simp [hc])]
      exact evalTo_throwF5 _ _
    obtain ⟨reqs, heq, _⟩ := h t
    simp [heq]
  · intro p r rest t hm hc
    have h : EvalTo (deviceReferenceM p) (r :: rest)
        (Except.error (RunErr.f5 r.raw)) rest [Method.get] := by
      obtain ⟨f, hf⟩ := deviceFilterM_total p (r :: rest)
      simp only [deviceReferenceM, httpGet]
      rw [if_neg (by simp [hm])]
      refine evalTo_cast (evalTo_bind hf
        (?_ : EvalTo _ _ _ _ [Method.get])) (by simp)
      refine evalTo_cast (evalTo_bind (evalTo_call _ _ _ _)
        (?_ : EvalTo _ _ _ _ [])) (by simp)
      rw [if_pos (by simp [hc])]
      exact evalTo_throwF5 _ _
    obtain ⟨reqs, heq, _⟩ := h t
    simp [heq]
  · intro p tn1 tn3 tn4 tm2 tm5 it1 it3 it4 jt2 jt5 l1 l3 l4 k2 k5
      sa1 ra1 sa3 ra3 sa4 ra4 sb2 rb2 sb5 rb5 r6 rest t h1 h3 h4 h2 h5 h6a h6b
    obtain ⟨reqs, heq, _⟩ := existsM_memberGetErr p tn1 tn3 tn4 tm2 tm5
      it1 it3 it4 jt2 jt5 l1 l3 l4 k2 k5
      sa1 ra1 sa3 ra3 sa4 ra4 sb2 rb2 sb5 rb5 r6 rest h1 h3 h4 h2 h5 h6a h6b t
    simp [heq]
  · intro p tn it l sa ra r rest t htn hc
    have hpost : EvalTo (createOnDeviceM p)
        (Resp.mk 200 tn (it :: l) sa ra :: r :: rest)
        (Except.error (RunErr.f5 r.raw)) rest [Method.get, Method.post] := by
      simp only [createOnDeviceM, httpPost]
      refine evalTo_cast (evalTo_bind (offeringIdM_hit p tn it l sa ra _ htn)
        (?_ : EvalTo _ _ _ _ [Method.post])) (by simp)
      refine evalTo_cast (evalTo_bind (evalTo_call _ _ _ _)
        (?_ : EvalTo _ _ _ _ [])) (by simp)
      rw [if_pos (by simp [hc])]
      exact evalTo_throwF5 _ _
    obtain ⟨reqs, heq, _⟩ := hpost t
    simp [heq]
  · intro p tn1 tn2 tm it1 it2 jt l1 l2 k sa1 ra1 sa2 ra2 sb rb r4 rest
      hm h1 h2 h3
    exact removeFromDeviceM_managed p tn1 tn2 tm it1 it2 jt l1 l2 k
      sa1 ra1 sa2 ra2 sb rb r4 rest hm h1 h2 h3
  · intro p d0 o1 o2 m1 o3 o4 o5 m2 m3 r4 g6 rest t hm h6
    have h : EvalTo (removeM p false)
        (Resp.mk 200 1 [d0] "" "" :: Resp.mk 200 1 [o1] "" "" ::
         Resp.mk 200 1 [o2] "" "" :: Resp.mk 200 1 [m1] "" "" :: r4 ::
         Resp.mk 200 1 [o3] "" "" :: Resp.mk 200 1 [m2] "" "" ::
         Resp.mk 200 1 [o4] "" "" :: Resp.mk 200 1 [o5] "" "" ::
         Resp.mk 200 1 [m3] "" "" :: g6 :: rest)
        (Except.error (RunErr.f5 "Failed to delete the resource.")) rest
        [Method.get, Method.get, Method.get, Method.get, Method.delete,
         Method.get, Method.get, Method.get, Method.get, Method.get,
         Method.get] := by
      simp only [removeM]
      refine evalTo_cast (evalTo_bind
        (setChangedOptionsM_hit p 1 d0 [] "" "" _ hm (by decide))
        (?_ : EvalTo _ _ _ _
          [Method.get, Method.get, Method.get, Method.delete,
           Method.get, Method.get, Method.get, Method.get, Method.get,
           Method.get])) (by simp)
      rw [if_neg (by simp)]
      refine evalTo_cast (evalTo_bind
        (removeFromDeviceM_managed p 1 1 1 o1 o2 m1 [] [] [] "" "" "" "" "" ""
          r4 _ hm (by decide) (by decide) (by decide))
        (?_ : EvalTo _ _ _ _
          [Method.get, Method.get, Method.get, Method.get, Method.get,
           Method.get])) (by simp)
      refine evalTo_cast (evalTo_bind
        (existsM_hit p 1 1 1 1 1 o3 o4 o5 m2 m3 [] [] [] [] []
          "" "" "" "" "" "" "" "" "" "" g6 rest
          (by decide) (by decide) (by decide) (by decide) (by decide) h6)
        (?_ : EvalTo _ _ _ _ [])) (by simp)
      rw [if_pos rfl]
      exact evalTo_throwF5 _ _
    obtain ⟨reqs, heq, _⟩ := h t
    simp [heq]

/-- Witness for the amended C4: one concrete instance per part. -/
theorem claim_c4_witness :
    (offeringIdM pWit ⟨[Resp.mk 500 0 [] "" "lookup error"], []⟩).1 =
      Except.error (RunErr.f5 "lookup error") ∧
    (memberIdM pWit ⟨[Resp.mk 200 1 [⟨"", "OID"⟩] "" "",
        Resp.mk 500 0 [] "" "member query error"], []⟩).1 =
      Except.error (RunErr.f5 "member query error") ∧
    (deviceReferenceM pWit ⟨[Resp.mk 500 0 [] "" "device lookup error"], []⟩).1 =
      Except.error (RunErr.f5 "device lookup error") ∧
    (existsM pWit ⟨[Resp.mk 200 1 [⟨"", "OID"⟩] "" "",
        Resp.mk 200 1 [⟨"", "MID"⟩] "" "", Resp.mk 200 1 [⟨"", "OID"⟩] "" "",
        Resp.mk 200 1 [⟨"", "OID"⟩] "" "", Resp.mk 200 1 [⟨"", "MID"⟩] "" "",
        Resp.mk 500 0 [] "" "member get error"], []⟩).1 =
      Except.error (RunErr.f5 "member get error") ∧
    (createOnDeviceM pWit
      ⟨[Resp.mk 200 1 [⟨"", "OID"⟩] "" "", Resp.mk 409 0 [] "" "conflict"], []⟩).1 =
      Except.error (RunErr.f5 "conflict") ∧
    (removeFromDeviceM pWit
      ⟨[Resp.mk 200 1 [⟨"", "OID"⟩] "" "", Resp.mk 200 1 [⟨"", "OID"⟩] "" "",
        Resp.mk 200 1 [⟨"", "MID"⟩] "" "", Resp.mk 500 0 [] "" "server error"], []⟩).1 =
      Except.ok () ∧
    (removeM pWit false
      ⟨[Resp.mk 200 1 [⟨"U", ""⟩] "" "", Resp.mk 200 1 [⟨"", "OID"⟩] "" "",
        Resp.mk 200 1 [⟨"", "OID"⟩] "" "", Resp.mk 200 1 [⟨"", "MID"⟩] "" "",
        Resp.mk 500 0 [] "" "server error", Resp.mk 200 1 [⟨"", "OID"⟩] "" "",
        Resp.mk 200 1 [⟨"", "MID"⟩] "" "", Resp.mk 200 1 [⟨"", "OID"⟩] "" "",
        Resp.mk 200 1 [⟨"", "OID"⟩] "" "", Resp.mk 200 1 [⟨"", "MID"⟩] "" "",
        Resp.mk 200 0 [] "LICENSED" ""], []⟩).1 =
      Except.error (RunErr.f5 "Failed to delete the resource.") := by
  refine ⟨?_, ?_, ?_, ?_, ?_, ?_, ?_⟩
  · exact claim_c4_non2xx.1 pWit (Resp.mk 500 0 [] "" "lookup error") [] []
      (by decide)
  · exact claim_c4_non2xx.2.1 pWit 1 ⟨"", "OID"⟩ [] "" ""
      (Resp.mk 500 0 [] "" "member query error") [] [] (by decide) (by decide)
  · exact claim_c4_non2xx.2.2.1 pWit (Resp.mk 500 0 [] "" "device lookup error")
      [] [] rfl (by decide)
  · exact claim_c4_non2xx.2.2.2.1 pWit 1 1 1 1 1 ⟨"", "OID"⟩ ⟨"", "OID"⟩
      ⟨"", "OID"⟩ ⟨"", "MID"⟩ ⟨"", "MID"⟩ [] [] [] [] [] "" "" "" "" "" "" "" "" "" ""
      (Resp.mk 500 0 [] "" "member get error") [] [] (by decide) (by decide)
      (by decide) (by decide) (by decide) (by decide) (by decide)
  · exact claim_c4_non2xx.2.2.2.2.1 pWit 1 ⟨"", "OID"⟩ [] "" ""
      (Resp.mk 409 0 [] "" "conflict") [] [] (by decide) (by decide)
  · obtain ⟨reqs, heq, _⟩ := claim_c4_non2xx.2.2.2.2.2.1 pWit 1 1 1 ⟨"", "OID"⟩
      ⟨"", "OID"⟩ ⟨"", "MID"⟩ [] [] [] "" "" "" "" "" ""
      (Resp.mk 500 0 [] "" "server error") [] rfl (by decide) (by decide) (by decide) []
    simp [heq]
  · exact claim_c4_non2xx.2.2.2.2.2.2 pWit ⟨"U", ""⟩ ⟨"", "OID"⟩ ⟨"", "OID"⟩
      ⟨"", "MID"⟩ ⟨"", "OID"⟩ ⟨"", "OID"⟩ ⟨"", "OID"⟩ ⟨"", "MID"⟩ ⟨"", "MID"⟩
      (Resp.mk 500 0 [] "" "server error") (Resp.mk 200 0 [] "LICENSED" "") [] []
      rfl (by decide)

end BigIQ
